import Mathlib

/-!
Shallow embedding of the flagright-backend graph model layer
(`src/models/User.ts`, `src/models/Transaction.ts`).

The Neo4j property graph is modelled as an explicit `GraphState`: lists of
user nodes, transaction nodes, their satellite records (addresses, payment
methods, device info, payment types) and the typed edges between them.
Each Cypher query issued by the model layer is translated into a pure
function on `GraphState`.  User and transaction ids are treated as node
identities (the stores only ever create nodes with fresh `randomUUID()` ids,
so an id picks out at most one node).  Write operations run inside one
Neo4j transaction that commits at the end and rolls back on error; this is
modelled by returning the original state on every error path.
-/

namespace Flagright

/-- Modelled from the spec: `src/utils/appError.ts` is not part of the
source snapshot (only its importers are).  Per section 7 of the spec the
error taxonomy attaches a status classification to an error
(ValidationError 400, NotFoundError 404, IntegrityError 500); every
`new AppError(message, status)` call in the model layer passes the status
explicitly, while the wrapping `new AppError(message)` calls in the upsert
catch blocks pass none, so the classification field is optional here: a
wrap constructed without an explicit status carries `none` (the class
default, whatever it is, rather than the wrapped error's status). -/
structure AppError where
  message : String
  statusCode : Option Nat
deriving DecidableEq, Repr

/-- JavaScript `x || null` on an optional string: the empty string is falsy. -/
def strTruthy : Option String → Option String
  | some s => if s = "" then none else some s
  | none => none

/-- JavaScript `x || null` on an optional number: `0` is falsy. -/
def ratTruthy : Option Rat → Option Rat
  | some x => if x = 0 then none else some x
  | none => none

structure Address where
  street : Option String
  city : Option String
  state : Option String
  postalCode : Option String
  country : Option String
deriving DecidableEq, Repr

/-- `street: userData.address?.street || null`, etc.: each field is stored
through JavaScript truthiness. -/
def sanitizeAddress (a : Address) : Address :=
  ⟨strTruthy a.street, strTruthy a.city, strTruthy a.state,
    strTruthy a.postalCode, strTruthy a.country⟩

structure PaymentMethod where
  id : String
  type : String
deriving DecidableEq, Repr

/-- A stored `User` node (`CREATE (u:User {...})`). -/
structure User where
  id : String
  firstName : String
  lastName : String
  email : String
  phone : Option String
  createdAt : String
  updatedAt : String
deriving DecidableEq, Repr

/-- The `Partial<IUser>` payload accepted by `UserModel.upsert`.  The route
validator (`validators/user.ts`) requires `firstName`, `lastName` and
`email`, so those are total; the rest are optional. -/
structure UserPayload where
  id : Option String
  firstName : String
  lastName : String
  email : String
  phone : Option String
  address : Option Address
  paymentMethods : Option (List PaymentMethod)
deriving DecidableEq, Repr

/-- The four derived user-to-user edge kinds. -/
inductive SharedKind
  | sharedEmail
  | sharedPhone
  | sharedAddress
  | sharedPayment
deriving DecidableEq, Repr

def SharedKind.relName : SharedKind → String
  | .sharedEmail => "SHARED_EMAIL"
  | .sharedPhone => "SHARED_PHONE"
  | .sharedAddress => "SHARED_ADDRESS"
  | .sharedPayment => "SHARED_PAYMENT_METHOD"

/-- A directed derived edge between two user nodes (stored direction). -/
structure SharedEdge where
  kind : SharedKind
  src : String
  dst : String
deriving DecidableEq, Repr

structure Geolocation where
  country : Option String
  state : Option String
deriving DecidableEq, Repr

structure DeviceInfo where
  ipAddress : Option String
  geolocation : Option Geolocation
deriving DecidableEq, Repr

/-- A stored `Transaction` node.  `senderId`/`receiverId` are total: they
are set from a validated payload at creation and the update path falls
back to the current stored value when they are not supplied. -/
structure Transaction where
  id : String
  transactionType : Option String
  status : Option String
  senderId : String
  receiverId : String
  amount : Option Rat
  currency : Option String
  destinationAmount : Option Rat
  destinationCurrency : Option String
  timestamp : Option String
  description : Option String
  deviceId : Option String
deriving DecidableEq, Repr

/-- The `Partial<ITransaction>` payload accepted by `TransactionModel.upsert`. -/
structure TransactionPayload where
  id : Option String
  transactionType : Option String
  status : Option String
  senderId : Option String
  receiverId : Option String
  amount : Option Rat
  currency : Option String
  destinationAmount : Option Rat
  destinationCurrency : Option String
  timestamp : Option String
  description : Option String
  deviceId : Option String
  deviceInfo : Option DeviceInfo
  paymentMethod : Option String
deriving DecidableEq, Repr

/-- A `DeviceInfo` satellite node together with its optional `Geolocation`
satellite (`FROM_DEVICE` and `LOCATED_AT` are created and `DETACH DELETE`d
together, so they are collapsed into one record keyed by transaction id). -/
structure DeviceNode where
  txId : String
  ipAddress : Option String
  geolocation : Option Geolocation
deriving DecidableEq, Repr

inductive TxSharedKind
  | sharedIp
  | sharedDevice
deriving DecidableEq, Repr

structure TxSharedEdge where
  kind : TxSharedKind
  src : String
  dst : String
deriving DecidableEq, Repr

/-- The whole stored graph. -/
structure GraphState where
  users : List User
  addresses : List (String × Address)
  userPayments : List (String × PaymentMethod)
  sharedEdges : List SharedEdge
  transactions : List Transaction
  sentEdges : List (String × String)
  receivedBy : List (String × String)
  txDevices : List DeviceNode
  txPayments : List (String × String)
  txShared : List TxSharedEdge
deriving DecidableEq, Repr

def emptyGraph : GraphState := ⟨[], [], [], [], [], [], [], [], [], []⟩

def userExists (st : GraphState) (uid : String) : Bool :=
  st.users.any (fun u => u.id = uid)

def txExists (st : GraphState) (tid : String) : Bool :=
  st.transactions.any (fun t => t.id = tid)

/-- The Shared Email query of `UserModel.createSharedRelationships`:
guarded by `if (userData.email)`, it matches `(u1:User {id: $userId})` and
every user `u2` with `u2.email = $email AND u2.id <> $userId` and creates
one `(u1)-[:SHARED_EMAIL]->(u2)` edge per row. -/
def addSharedEmailEdges (uid : String) (p : UserPayload) (st : GraphState) : GraphState :=
  if userExists st uid ∧ p.email ≠ "" then
    let emailEdges : List SharedEdge :=
      (st.users.filter (fun u => decide (u.email = p.email ∧ u.id ≠ uid))).map
        (fun u => ⟨.sharedEmail, uid, u.id⟩)
    { st with sharedEdges := st.sharedEdges ++ emailEdges }
  else st

/-- The Shared Phone query: guarded by `if (userData.phone)`. -/
def addSharedPhoneEdges (uid : String) (p : UserPayload) (st : GraphState) : GraphState :=
  match strTruthy p.phone with
  | some ph =>
    if userExists st uid then
      let phoneEdges : List SharedEdge :=
        (st.users.filter (fun u => decide (u.phone = some ph ∧ u.id ≠ uid))).map
          (fun u => ⟨.sharedPhone, uid, u.id⟩)
      { st with sharedEdges := st.sharedEdges ++ phoneEdges }
    else st
  | none => st

/-- The Shared Address query: guarded by
`if (userData.address?.street && userData.address?.city)`; `CREATE` runs
once per row of the cartesian product of the `(u1)-[:HAS_ADDRESS]->(a1)`
bindings and the matching `(u2)-[:HAS_ADDRESS]->(a2)` bindings. -/
def addSharedAddressEdges (uid : String) (p : UserPayload) (st : GraphState) : GraphState :=
  match p.address with
  | some a =>
    match strTruthy a.street, strTruthy a.city with
    | some street, some city =>
      if userExists st uid then
        let ownRows := st.addresses.filter (fun (r : String × Address) => decide (r.1 = uid))
        let matchRows := st.addresses.filter (fun (r : String × Address) =>
          decide (r.2.street = some street ∧ r.2.city = some city ∧ r.1 ≠ uid ∧
            userExists st r.1 = true))
        let addrEdges : List SharedEdge :=
          ownRows.flatMap (fun _ => matchRows.map (fun r => ⟨.sharedAddress, uid, r.1⟩))
        { st with sharedEdges := st.sharedEdges ++ addrEdges }
      else st
    | _, _ => st
  | none => st

/-- One iteration of the Shared Payment Method loop (one query per payload
payment method). -/
def sharedPaymentStep (uid : String) (acc : GraphState) (pm : PaymentMethod) : GraphState :=
  if userExists acc uid then
    let ownRows := acc.userPayments.filter
      (fun (r : String × PaymentMethod) => decide (r.1 = uid))
    let matchRows := acc.userPayments.filter (fun (r : String × PaymentMethod) =>
      decide (r.2.id = pm.id ∧ r.1 ≠ uid ∧ userExists acc r.1 = true))
    let payEdges : List SharedEdge :=
      ownRows.flatMap (fun _ => matchRows.map (fun r => ⟨.sharedPayment, uid, r.1⟩))
    { acc with sharedEdges := acc.sharedEdges ++ payEdges }
  else acc

/-- The Shared Payment Method block: guarded by
`if (userData.paymentMethods && userData.paymentMethods.length > 0)`, one
query per listed payment method (an absent or empty list runs none). -/
def addSharedPaymentEdges (uid : String) (p : UserPayload) (st : GraphState) : GraphState :=
  match p.paymentMethods with
  | some pms => pms.foldl (sharedPaymentStep uid) st
  | none => st

/-- `UserModel.createSharedRelationships`: the four queries in source
order; each matches the written user (`u1`) and every other existing user
whose corresponding attribute equals the payload value, and creates one
directed edge from `u1` to each match. -/
def createSharedRelationships (uid : String) (p : UserPayload) (st : GraphState) :
    GraphState :=
  addSharedPaymentEdges uid p
    (addSharedAddressEdges uid p (addSharedPhoneEdges uid p (addSharedEmailEdges uid p st)))


/-- The `SET` query of `UserModel.updateExistingUser`: `firstName`,
`lastName`, `phone` (through `|| null`), `updatedAt` and `email` are
overwritten unconditionally on every node matching the id. -/
def applyUserScalarUpdate (uid : String) (p : UserPayload) (now : String)
    (st : GraphState) : GraphState :=
  { st with users := st.users.map (fun u =>
      if u.id = uid then
        { u with firstName := p.firstName, lastName := p.lastName,
                 phone := strTruthy p.phone, updatedAt := now, email := p.email }
      else u) }

/-- Update or create Address: only when the payload carries an address is
the existing one deleted and a new one created. -/
def replaceUserAddress (uid : String) (p : UserPayload) (st : GraphState) : GraphState :=
  match p.address with
  | some a =>
    let addrs := st.addresses.filter (fun (r : String × Address) => decide (r.1 ≠ uid)) ++
      [(uid, sanitizeAddress a)]
    { st with addresses := addrs }
  | none => st

/-- Update Payment Methods: only when the payload carries a nonempty list
are the existing ones deleted and the new ones created. -/
def replaceUserPayments (uid : String) (p : UserPayload) (st : GraphState) : GraphState :=
  match p.paymentMethods with
  | some pms =>
    if pms ≠ [] then
      let pays := st.userPayments.filter
          (fun (r : String × PaymentMethod) => decide (r.1 ≠ uid)) ++
        pms.map (fun pm => (uid, pm))
      { st with userPayments := pays }
    else st
  | none => st

/-- Delete existing shared relationships: only edges directed out of `uid`
(`MATCH (u:User {id: $userId})-[r:SHARED_EMAIL|SHARED_PHONE|SHARED_ADDRESS|SHARED_PAYMENT_METHOD]->() DELETE r`). -/
def deleteOutgoingSharedEdges (uid : String) (st : GraphState) : GraphState :=
  { st with sharedEdges := st.sharedEdges.filter (fun e => decide (e.src ≠ uid)) }

/-- `UserModel.updateExistingUser`: scalar `SET`, conditional satellite
replacement, deletion of the outgoing shared edges and re-derivation from
the payload; the returned record is the node returned by
`SET ... RETURN u`. -/
def updateExistingUser (uid : String) (p : UserPayload) (st : GraphState)
    (now : String) : Option User × GraphState :=
  let st1 := applyUserScalarUpdate uid p now st
  let st2 := replaceUserAddress uid p st1
  let st3 := replaceUserPayments uid p st2
  let st4 := deleteOutgoingSharedEdges uid st3
  let st5 := createSharedRelationships uid p st4
  (st1.users.find? (fun u => decide (u.id = uid)), st5)

/-- The user node built by the `CREATE (u:User {...})` query
(`phone: userData.phone || null`). -/
def newUserRecord (newId now : String) (p : UserPayload) : User :=
  ⟨newId, p.firstName, p.lastName, p.email, strTruthy p.phone, now, now⟩

/-- The satellite-creation part of the `UserModel.upsert` create path: an
`Address` node when the payload carries one, and one `PaymentMethod` node
per entry when the payload carries a nonempty list. -/
def addNewUserSatellites (newId : String) (p : UserPayload) (st : GraphState) : GraphState :=
  let st2 :=
    match p.address with
    | some a => { st with addresses := st.addresses ++ [(newId, sanitizeAddress a)] }
    | none => st
  match p.paymentMethods with
  | some pms =>
    if pms ≠ [] then
      { st2 with userPayments := st2.userPayments ++ pms.map (fun pm => (newId, pm)) }
    else st2
  | none => st2

/-- The catch block of `UserModel.upsert`: every error thrown inside the
transaction is rolled back and re-thrown as
`new AppError('Error while upserting user: ' + message)` — without a status. -/
def wrapUserError (e : AppError) : AppError :=
  ⟨"Error while upserting user: " ++ e.message, none⟩

/-- `UserModel.upsert`.  `newId` stands for the `randomUUID()` the storage
layer generates on the create path; `now` for `new Date().toISOString()`.
The returned state is the committed state on success and the original
(rolled-back) state on error. -/
def upsertUser (newId now : String) (p : UserPayload) (st : GraphState) :
    Except AppError (Option User × Bool) × GraphState :=
  match p.id with
  | some uid =>
    if userExists st uid then
      let r := updateExistingUser uid p st now
      (.ok (r.1, false), r.2)
    else
      (.error (wrapUserError ⟨"User with ID " ++ uid ++ " not found", some 404⟩), st)
  | none =>
    let user := newUserRecord newId now p
    let st1 := { st with users := st.users ++ [user] }
    (.ok (some user, true),
      createSharedRelationships newId p (addNewUserSatellites newId p st1))

def findTx (st : GraphState) (tid : String) : Option Transaction :=
  st.transactions.find? (fun t => decide (t.id = tid))

/-- `TransactionModel.createRelatedEntities`: create a `DeviceInfo` node
(with nested `Geolocation` when the payload carries one) and a
`PaymentType` node, each only when the corresponding payload group is
present. -/
def addTxDeviceNode (tid : String) (p : TransactionPayload) (st : GraphState) :
    GraphState :=
  match p.deviceInfo with
  | some d =>
    let geo : Option Geolocation :=
      match d.geolocation with
      | some g => some ⟨strTruthy g.country, strTruthy g.state⟩
      | none => none
    { st with txDevices := st.txDevices ++ [⟨tid, strTruthy d.ipAddress, geo⟩] }
  | none => st

/-- Add payment method if provided: `if (transactionData.paymentMethod)`. -/
def addTxPaymentNode (tid : String) (p : TransactionPayload) (st : GraphState) :
    GraphState :=
  match strTruthy p.paymentMethod with
  | some pm => { st with txPayments := st.txPayments ++ [(tid, pm)] }
  | none => st

def createRelatedEntities (tid : String) (p : TransactionPayload) (st : GraphState) :
    GraphState :=
  addTxPaymentNode tid p (addTxDeviceNode tid p st)

/-- `MERGE (t1)-[:KIND]-(t2)`: add the undirected edge unless it already
exists in either stored direction. -/
def mergeTxEdge (st : GraphState) (k : TxSharedKind) (a b : String) : GraphState :=
  if st.txShared.any (fun e =>
      decide ((e.kind = k ∧ e.src = a ∧ e.dst = b) ∨ (e.kind = k ∧ e.src = b ∧ e.dst = a))) then
    st
  else { st with txShared := st.txShared ++ [⟨k, a, b⟩] }

/-- `TransactionModel.createSharedRelationships` (bidirectional variant):
MERGE a `SHARED_IP` edge to every other transaction whose `DeviceInfo`
satellite has the same IP, and a `SHARED_DEVICE` edge to every other
transaction with the same `deviceId` property. -/
def addTxSharedIpEdges (tid : String) (p : TransactionPayload) (st : GraphState) :
    GraphState :=
  -- Shared IP Address: `if (transactionData.deviceInfo?.ipAddress)`;
  -- `MATCH (t1 {id})-[:FROM_DEVICE]->(d1)` needs t1 to own a device node.
  match p.deviceInfo.bind (fun d => strTruthy d.ipAddress) with
  | some ip =>
    if st.txDevices.any (fun d => decide (d.txId = tid)) then
      let ipRows := st.txDevices.filter (fun d =>
        decide (d.ipAddress = some ip ∧ d.txId ≠ tid ∧ txExists st d.txId = true))
      ipRows.foldl (fun acc d => mergeTxEdge acc .sharedIp tid d.txId) st
    else st
  | none => st

/-- Shared Device ID: `if (transactionData.deviceId)`. -/
def addTxSharedDeviceEdges (tid : String) (p : TransactionPayload) (st : GraphState) :
    GraphState :=
  match strTruthy p.deviceId with
  | some dev =>
    let devRows := st.transactions.filter (fun t =>
      decide (t.deviceId = some dev ∧ t.id ≠ tid))
    devRows.foldl (fun acc t => mergeTxEdge acc .sharedDevice tid t.id) st
  | none => st

def createTxSharedRelationships (tid : String) (p : TransactionPayload)
    (st : GraphState) : GraphState :=
  addTxSharedDeviceEdges tid p (addTxSharedIpEdges tid p st)

/-- Tear down every `SENT`/`RECEIVED_BY` edge touching the transaction
(undirected `-[r:SENT|RECEIVED_BY]-()`) and create the new pair;
`MATCH (sender {id}) MATCH (receiver {id}) CREATE ...` produces no rows
(hence no edges) when either user node is absent. -/
def rebuildTxEdges (tid newSender newReceiver : String) (st : GraphState) : GraphState :=
  let stDel :=
    { st with
      sentEdges := st.sentEdges.filter
        (fun (e : String × String) => decide (e.2 ≠ tid)),
      receivedBy := st.receivedBy.filter
        (fun (e : String × String) => decide (e.1 ≠ tid)) }
  if userExists stDel newSender ∧ userExists stDel newReceiver then
    { stDel with
      sentEdges := stDel.sentEdges ++ [(newSender, tid)],
      receivedBy := stDel.receivedBy ++ [(tid, newReceiver)] }
  else stDel

/-- The `SET` query of `updateExistingTransaction`: every scalar property
is overwritten; absent payload fields are passed as `null` (`?? null`, or
`|| null` for `destinationAmount`, `destinationCurrency`, `description`
and `deviceId`), except `senderId`/`receiverId` which fall back to the
current stored values. -/
def applyTxScalarUpdate (tid : String) (p : TransactionPayload)
    (newSender newReceiver : String) (st : GraphState) : GraphState :=
  { st with transactions := st.transactions.map (fun t =>
      if t.id = tid then
        { t with
          transactionType := p.transactionType,
          status := p.status,
          senderId := newSender,
          receiverId := newReceiver,
          amount := p.amount,
          currency := p.currency,
          destinationAmount := ratTruthy p.destinationAmount,
          destinationCurrency := strTruthy p.destinationCurrency,
          timestamp := p.timestamp,
          description := strTruthy p.description,
          deviceId := strTruthy p.deviceId }
      else t) }

/-- Delete the transaction's `DeviceInfo`/`Geolocation` and `PaymentType`
satellites and the `SHARED_IP`/`SHARED_DEVICE` edges touching it (the
update path deletes them with an undirected pattern). -/
def deleteTxSatellites (tid : String) (st : GraphState) : GraphState :=
  { st with
    txDevices := st.txDevices.filter (fun d => decide (d.txId ≠ tid)),
    txPayments := st.txPayments.filter
      (fun (r : String × String) => decide (r.1 ≠ tid)),
    txShared := st.txShared.filter (fun e => decide (e.src ≠ tid ∧ e.dst ≠ tid)) }

/-- `TransactionModel.updateExistingTransaction`: re-validate supplied
payer/receiver ids, reject supplied-and-equal payer/receiver, tear down and
rebuild `SENT`/`RECEIVED_BY` only when a payer or receiver id is supplied,
`SET` every scalar property (absent payload fields become `null`, except
`senderId`/`receiverId` which fall back to the current stored values),
delete-and-recreate the satellites and the `SHARED_IP`/`SHARED_DEVICE`
edges.  Errors propagate to the upsert catch block. -/
def updateExistingTransaction (tid : String) (p : TransactionPayload)
    (st : GraphState) : Except AppError (Option Transaction × GraphState) :=
  let sSup := strTruthy p.senderId
  let rSup := strTruthy p.receiverId
  if sSup.isSome = true ∧ userExists st (sSup.getD "") = false then
    .error ⟨"Sender with ID " ++ sSup.getD "" ++ " not found", some 404⟩
  else if rSup.isSome = true ∧ userExists st (rSup.getD "") = false then
    .error ⟨"Receiver with ID " ++ rSup.getD "" ++ " not found", some 404⟩
  else if sSup.isSome = true ∧ rSup.isSome = true ∧ sSup = rSup then
    .error ⟨"Sender and receiver cannot be the same user", some 400⟩
  else
    match findTx st tid with
    | none => .error ⟨"Transaction with ID " ++ tid ++ " not found", some 404⟩
    | some curTx =>
      -- `transactionData.senderId || await getCurrentSenderId(...)`
      let newSender := sSup.getD curTx.senderId
      let newReceiver := rSup.getD curTx.receiverId
      -- tear down and rebuild SENT/RECEIVED_BY only when supplied
      let st1 :=
        if sSup.isSome ∨ rSup.isSome then rebuildTxEdges tid newSender newReceiver st
        else st
      let st2 := applyTxScalarUpdate tid p newSender newReceiver st1
      let updated := st2.transactions.find? (fun t => decide (t.id = tid))
      let st3 := deleteTxSatellites tid st2
      let st4 := createRelatedEntities tid p st3
      let st5 := createTxSharedRelationships tid p st4
      .ok (updated, st5)

/-- The catch block of `TransactionModel.upsert`: every error thrown inside
the transaction is rolled back and re-thrown as
`new AppError('Error while upserting transaction: ' + message)` — without a
status. -/
def wrapTxError (e : AppError) : AppError :=
  ⟨"Error while upserting transaction: " ++ e.message, none⟩

/-- `TransactionModel.upsert`.  `newId` stands for `randomUUID()`.  The
returned state is the committed state on success and the original
(rolled-back) state on error. -/
def upsertTransaction (newId : String) (p : TransactionPayload) (st : GraphState) :
    Except AppError (Option Transaction × Bool) × GraphState :=
  match p.id with
  | some tid =>
    if txExists st tid then
      match updateExistingTransaction tid p st with
      | .ok (tr, st') => (.ok (tr, false), st')
      | .error e => (.error (wrapTxError e), st)
    else
      (.error (wrapTxError ⟨"Transaction with ID " ++ tid ++ " not found", some 404⟩), st)
  | none =>
    -- Verify that both sender and receiver exist
    if (match p.senderId with | some s => userExists st s | none => false) = false then
      (.error (wrapTxError
        ⟨"Sender with ID " ++ p.senderId.getD "undefined" ++ " not found", some 404⟩), st)
    else if (match p.receiverId with | some r => userExists st r | none => false) = false then
      (.error (wrapTxError
        ⟨"Receiver with ID " ++ p.receiverId.getD "undefined" ++ " not found", some 404⟩), st)
    -- check if sender and receiver are the same
    else if p.senderId = p.receiverId then
      (.error (wrapTxError ⟨"Sender and receiver cannot be the same user", some 400⟩), st)
    else
      let s := p.senderId.getD ""
      let r := p.receiverId.getD ""
      let t : Transaction :=
        ⟨newId, p.transactionType, p.status, s, r, p.amount, p.currency,
          ratTruthy p.destinationAmount, strTruthy p.destinationCurrency, p.timestamp,
          strTruthy p.description, strTruthy p.deviceId⟩
      let st1 :=
        { st with
          transactions := st.transactions ++ [t],
          sentEdges := st.sentEdges ++ [(s, newId)],
          receivedBy := st.receivedBy ++ [(newId, r)] }
      let st2 := createRelatedEntities newId p st1
      let st3 := createTxSharedRelationships newId p st2
      (.ok (some t, true), st3)

/-- The public projection `relatedUser { .id, .firstName, .lastName, .email }`. -/
structure PublicUser where
  id : String
  firstName : String
  lastName : String
  email : String
deriving DecidableEq, Repr

def publicOf (u : User) : PublicUser := ⟨u.id, u.firstName, u.lastName, u.email⟩

structure DirectRelationship where
  relationshipType : String
  user : PublicUser
deriving DecidableEq, Repr

/-- The first query of `UserModel.getUserConnections`:
`MATCH (currentUser:User {id: $userId})-[r:SHARED_EMAIL|SHARED_PHONE|SHARED_ADDRESS|SHARED_PAYMENT_METHOD]-(relatedUser:User)`
— an undirected pattern, so every stored shared edge touching the user is
returned once, paired with the other endpoint's public fields. -/
def directRelationships (st : GraphState) (uid : String) : List DirectRelationship :=
  if userExists st uid then
    st.sharedEdges.filterMap (fun e =>
      if e.src = uid then
        (st.users.find? (fun u => decide (u.id = e.dst))).map
          (fun u => ⟨e.kind.relName, publicOf u⟩)
      else if e.dst = uid then
        (st.users.find? (fun u => decide (u.id = e.src))).map
          (fun u => ⟨e.kind.relName, publicOf u⟩)
      else none)
  else []

structure Pagination where
  currentPage : Nat
  totalPages : Nat
  totalUsers : Nat
  hasNextPage : Bool
  hasPreviousPage : Bool
deriving DecidableEq, Repr

/-- Insert into a list sorted by `createdAt` descending. -/
def insertByCreatedAtDesc (x : User) : List User → List User
  | [] => [x]
  | y :: ys => if y.createdAt < x.createdAt then x :: y :: ys else y :: insertByCreatedAtDesc x ys

/-- `ORDER BY u.createdAt DESC`. -/
def sortByCreatedAtDesc (l : List User) : List User :=
  l.foldr insertByCreatedAtDesc []

/-- `UserModel.getAllUsers`: count all users, compute
`totalPages = Math.ceil(totalUsers / limit)`, return the `SKIP $offset
LIMIT $limit` page of the `createdAt`-descending listing, and the
pagination metadata computed with JavaScript real division
(`offset / limit + 1 < totalPages`, etc.).  The caller clamps
`limit ≥ 1`. -/
def getAllUsers (st : GraphState) (offset limit : Nat) : List User × Pagination :=
  let totalUsers := st.users.length
  let totalPages := (totalUsers + limit - 1) / limit
  let page := ((sortByCreatedAtDesc st.users).drop offset).take limit
  (page,
    { currentPage := offset / limit + 1
      totalPages := totalPages
      totalUsers := totalUsers
      hasNextPage := decide ((offset : ℚ) / (limit : ℚ) + 1 < (totalPages : ℚ))
      hasPreviousPage := decide ((1 : ℚ) < (offset : ℚ) / (limit : ℚ) + 1) })

/-- Undirected adjacency along `SENT`/`RECEIVED_BY` edges
(`(u1)-[:SENT|RECEIVED_BY*]-(u2)` traverses both edge kinds in both
directions). -/
def adjacency (st : GraphState) (x : String) : List String :=
  st.sentEdges.filterMap (fun (e : String × String) =>
    if e.1 = x then some e.2 else if e.2 = x then some e.1 else none) ++
  st.receivedBy.filterMap (fun (e : String × String) =>
    if e.1 = x then some e.2 else if e.2 = x then some e.1 else none)

/-- Breadth-first search for a minimum-hop undirected `SENT`/`RECEIVED_BY`
path; `paths` holds reversed node-id lists, `fuel` bounds the depth. -/
def bfsAux (st : GraphState) (target : String) :
    Nat → List (List String) → List String → Option (List String)
  | 0, _, _ => none
  | _ + 1, [], _ => none
  | fuel + 1, paths, visited =>
    match paths.find? (fun pth => decide (pth.headD "" = target)) with
    | some pth => some pth.reverse
    | none =>
      let next := paths.flatMap (fun pth =>
        (adjacency st (pth.headD "")).filterMap (fun n =>
          if visited.contains n then none else some (n :: pth)))
      bfsAux st target fuel next (visited ++ next.map (fun pth => pth.headD ""))

/-- One row per binding of
`MATCH (u1:User {id: $userId1}) MATCH (u2:User {id: $userId2})
MATCH path = shortestPath((u1)-[:SENT|RECEIVED_BY*]-(u2)) WHERE u1 <> u2`:
the `WHERE` clause discards every binding in which the two endpoint nodes
coincide, so no row survives when both ids pick out the same node. -/
def shortestPathQueryRows (st : GraphState) (id1 id2 : String) : List (List String) :=
  let u1s := st.users.filter (fun u => decide (u.id = id1))
  let u2s := st.users.filter (fun u => decide (u.id = id2))
  (u1s.flatMap (fun a => u2s.map (fun b => (a, b)))).filterMap (fun q =>
    if q.1 = q.2 then none
    else bfsAux st q.2.id (st.users.length + st.transactions.length + 1) [[q.1.id]] [q.1.id])

/-- The query stage of `UserModel.findShortestPathBetweenUsers`: verify both
users exist (404 otherwise), run the shortest-path query, and fail with the
no-path 404 when it returns no records. -/
def findShortestPathFront (st : GraphState) (id1 id2 : String) :
    Except AppError (List (List String)) :=
  if userExists st id1 ∧ userExists st id2 then
    let rows := shortestPathQueryRows st id1 id2
    if rows = [] then
      .error ⟨"No path exists between users " ++ id1 ++ " and " ++ id2, some 404⟩
    else .ok rows
  else
    .error ⟨"One or both users not found: " ++ id1 ++ ", " ++ id2, some 404⟩

inductive NodeKind
  | user
  | transaction
deriving DecidableEq, Repr

/-- A node of the raw path record: the driver-internal `identity`, the
`labels` list and the `id` property. -/
structure RawNode where
  identity : Nat
  labels : List String
  propId : String
deriving DecidableEq, Repr

/-- A relationship of the raw path record: stored type and the
driver-internal identities of its start and end nodes. -/
structure RawRel where
  relType : String
  relStart : Nat
  relEnd : Nat
deriving DecidableEq, Repr

structure PathNodeOut where
  kind : NodeKind
  propId : String
deriving DecidableEq, Repr

structure PathRelOut where
  relType : String
  startNodeId : String
  endNodeId : String
deriving DecidableEq, Repr

/-- `node.labels.includes('User') ? 'User' : 'Transaction'`. -/
def nodeKindOf (n : RawNode) : NodeKind :=
  if n.labels.contains "User" then .user else .transaction

/-- `nodeIdMap[internalId] = node.properties.id` built by `forEach`: a later
assignment to the same key overwrites an earlier one. -/
def nodeIdLookup (nodesRaw : List RawNode) (k : Nat) : Option String :=
  (nodesRaw.reverse.find? (fun n => decide (n.identity = k))).map (fun n => n.propId)

/-- `nodeIdMap[...]` followed by the falsy check `!startNodeId`: a missing
key and an empty-string id both fail the check. -/
def lookupTruthy (nodesRaw : List RawNode) (k : Nat) : Option String :=
  match nodeIdLookup nodesRaw k with
  | some s => if s = "" then none else some s
  | none => none

/-- `rel.type === 'SENT' ? 'RECEIVED_BY' : 'SENT'`. -/
def flipType (t : String) : String :=
  if t = "SENT" then "RECEIVED_BY" else "SENT"

/-- One step of the relationship-mapping `.map((rel, index) => ...)` inside
`findShortestPathBetweenUsers`: resolve the stored endpoints through the
node-id map (dropping the relationship when either resolution is falsy),
compare them with the expected ids `nodes[index]`/`nodes[index + 1]` of the
path's node sequence, drop the relationship when it aligns with neither
direction, swap the endpoints and flip the type when it is traversed
backwards, and finally validate `SENT`/`RECEIVED_BY` against the two node
kinds.  Reading past the end of the node list is the JavaScript
`undefined.properties` crash, wrapped by the outer catch into a 500. -/
def mapRelAt (nodesRaw : List RawNode) (i : Nat) (rel : RawRel) :
    Except AppError (Option PathRelOut) :=
  match lookupTruthy nodesRaw rel.relStart, lookupTruthy nodesRaw rel.relEnd with
  | some s, some t =>
    match nodesRaw.get? i, nodesRaw.get? (i + 1) with
    | some n1, some n2 =>
      let expectedStart := n1.propId
      let expectedEnd := n2.propId
      let startKind := nodeKindOf n1
      let endKind := nodeKindOf n2
      if ¬(s = expectedStart ∧ t = expectedEnd) ∧ ¬(s = expectedEnd ∧ t = expectedStart) then
        .ok none
      else
        let isReversed := decide (s = expectedEnd ∧ t = expectedStart)
        let fs := if isReversed then t else s
        let fe := if isReversed then s else t
        let ft := if isReversed then flipType rel.relType else rel.relType
        if ft = "SENT" ∧ ¬(startKind = .user ∧ endKind = .transaction) then
          .ok none
        else if ft = "RECEIVED_BY" ∧ ¬(startKind = .transaction ∧ endKind = .user) then
          .ok none
        else
          .ok (some ⟨ft, fs, fe⟩)
    | _, _ =>
      .error ⟨"Error while finding shortest path: Cannot read properties of undefined", some 500⟩
  | _, _ => .ok none

/-- The whole relationship pipeline: map each raw relationship at its index
and keep the non-null results (`.filter((rel) => rel !== null)`). -/
def processRels (nodesRaw : List RawNode) : Nat → List RawRel →
    Except AppError (List PathRelOut)
  | _, [] => .ok []
  | i, rel :: rest =>
    match mapRelAt nodesRaw i rel with
    | .error e => .error e
    | .ok none => processRels nodesRaw (i + 1) rest
    | .ok (some r) =>
      match processRels nodesRaw (i + 1) rest with
      | .error e => .error e
      | .ok rs => .ok (r :: rs)

structure ShortestPathResult where
  nodes : List PathNodeOut
  relationships : List PathRelOut
  length : Nat
deriving DecidableEq, Repr

/-- The record-processing tail of `UserModel.findShortestPathBetweenUsers`:
build the typed node list, map the relationships, and enforce the
edge-count/path-length invariant — a mismatch after filtering fails the
whole call with a 500 instead of returning an inconsistent path. -/
def processPathRecord (nodesRaw : List RawNode) (relsRaw : List RawRel)
    (pathLength : Nat) : Except AppError ShortestPathResult :=
  match processRels nodesRaw 0 relsRaw with
  | .error e => .error e
  | .ok rels =>
    if rels.length ≠ pathLength then
      .error ⟨"Mismatch between path length (" ++ toString pathLength ++
        ") and number of relationships (" ++ toString rels.length ++ ")", some 500⟩
    else
      .ok ⟨nodesRaw.map (fun n => ⟨nodeKindOf n, n.propId⟩), rels, pathLength⟩

/-! ### Structural lemmas about the shared-relationship queries -/

lemma addSharedEmailEdges_users (uid : String) (p : UserPayload) (st : GraphState) :
    (addSharedEmailEdges uid p st).users = st.users := by
  unfold addSharedEmailEdges
  split <;> rfl

lemma addSharedPhoneEdges_users (uid : String) (p : UserPayload) (st : GraphState) :
    (addSharedPhoneEdges uid p st).users = st.users := by
  unfold addSharedPhoneEdges
  split
  · split <;> rfl
  · rfl

lemma addSharedAddressEdges_users (uid : String) (p : UserPayload) (st : GraphState) :
    (addSharedAddressEdges uid p st).users = st.users := by
  unfold addSharedAddressEdges
  split
  · split
    · split <;> rfl
    · rfl
  · rfl

lemma sharedPaymentStep_users (uid : String) (acc : GraphState) (pm : PaymentMethod) :
    (sharedPaymentStep uid acc pm).users = acc.users := by
  unfold sharedPaymentStep
  split <;> rfl

lemma foldl_sharedPaymentStep_users (uid : String) (pms : List PaymentMethod)
    (st : GraphState) : (pms.foldl (sharedPaymentStep uid) st).users = st.users := by
  induction pms generalizing st with
  | nil => rfl
  | cons pm rest ih => rw [List.foldl_cons, ih, sharedPaymentStep_users]

lemma addSharedPaymentEdges_users (uid : String) (p : UserPayload) (st : GraphState) :
    (addSharedPaymentEdges uid p st).users = st.users := by
  unfold addSharedPaymentEdges
  split
  · exact foldl_sharedPaymentStep_users _ _ _
  · rfl

lemma createSharedRelationships_users (uid : String) (p : UserPayload) (st : GraphState) :
    (createSharedRelationships uid p st).users = st.users := by
  unfold createSharedRelationships
  rw [addSharedPaymentEdges_users, addSharedAddressEdges_users, addSharedPhoneEdges_users,
    addSharedEmailEdges_users]

lemma addSharedEmailEdges_addresses (uid : String) (p : UserPayload) (st : GraphState) :
    (addSharedEmailEdges uid p st).addresses = st.addresses := by
  unfold addSharedEmailEdges
  split <;> rfl

lemma addSharedPhoneEdges_addresses (uid : String) (p : UserPayload) (st : GraphState) :
    (addSharedPhoneEdges uid p st).addresses = st.addresses := by
  unfold addSharedPhoneEdges
  split
  · split <;> rfl
  · rfl

lemma addSharedAddressEdges_addresses (uid : String) (p : UserPayload) (st : GraphState) :
    (addSharedAddressEdges uid p st).addresses = st.addresses := by
  unfold addSharedAddressEdges
  split
  · split
    · split <;> rfl
    · rfl
  · rfl

lemma sharedPaymentStep_addresses (uid : String) (acc : GraphState) (pm : PaymentMethod) :
    (sharedPaymentStep uid acc pm).addresses = acc.addresses := by
  unfold sharedPaymentStep
  split <;> rfl

lemma foldl_sharedPaymentStep_addresses (uid : String) (pms : List PaymentMethod)
    (st : GraphState) : (pms.foldl (sharedPaymentStep uid) st).addresses = st.addresses := by
  induction pms generalizing st with
  | nil => rfl
  | cons pm rest ih => rw [List.foldl_cons, ih, sharedPaymentStep_addresses]

lemma createSharedRelationships_addresses (uid : String) (p : UserPayload)
    (st : GraphState) :
    (createSharedRelationships uid p st).addresses = st.addresses := by
  unfold createSharedRelationships addSharedPaymentEdges
  split
  · rw [foldl_sharedPaymentStep_addresses, addSharedAddressEdges_addresses,
      addSharedPhoneEdges_addresses, addSharedEmailEdges_addresses]
  · rw [addSharedAddressEdges_addresses, addSharedPhoneEdges_addresses,
      addSharedEmailEdges_addresses]

lemma addSharedEmailEdges_userPayments (uid : String) (p : UserPayload) (st : GraphState) :
    (addSharedEmailEdges uid p st).userPayments = st.userPayments := by
  unfold addSharedEmailEdges
  split <;> rfl

lemma addSharedPhoneEdges_userPayments (uid : String) (p : UserPayload) (st : GraphState) :
    (addSharedPhoneEdges uid p st).userPayments = st.userPayments := by
  unfold addSharedPhoneEdges
  split
  · split <;> rfl
  · rfl

lemma addSharedAddressEdges_userPayments (uid : String) (p : UserPayload)
    (st : GraphState) :
    (addSharedAddressEdges uid p st).userPayments = st.userPayments := by
  unfold addSharedAddressEdges
  split
  · split
    · split <;> rfl
    · rfl
  · rfl

lemma sharedPaymentStep_userPayments (uid : String) (acc : GraphState)
    (pm : PaymentMethod) :
    (sharedPaymentStep uid acc pm).userPayments = acc.userPayments := by
  unfold sharedPaymentStep
  split <;> rfl

lemma foldl_sharedPaymentStep_userPayments (uid : String) (pms : List PaymentMethod)
    (st : GraphState) :
    (pms.foldl (sharedPaymentStep uid) st).userPayments = st.userPayments := by
  induction pms generalizing st with
  | nil => rfl
  | cons pm rest ih => rw [List.foldl_cons, ih, sharedPaymentStep_userPayments]

lemma createSharedRelationships_userPayments (uid : String) (p : UserPayload)
    (st : GraphState) :
    (createSharedRelationships uid p st).userPayments = st.userPayments := by
  unfold createSharedRelationships addSharedPaymentEdges
  split
  · rw [foldl_sharedPaymentStep_userPayments, addSharedAddressEdges_userPayments,
      addSharedPhoneEdges_userPayments, addSharedEmailEdges_userPayments]
  · rw [addSharedAddressEdges_userPayments, addSharedPhoneEdges_userPayments,
      addSharedEmailEdges_userPayments]

/-- Membership of a `SHARED_EMAIL` edge out of `uid` after the Shared Email
query: it was already there, or the guard held and the target is another
user with the payload email. -/
lemma mem_email_addSharedEmailEdges (uid b : String) (p : UserPayload) (st : GraphState) :
    (⟨.sharedEmail, uid, b⟩ : SharedEdge) ∈ (addSharedEmailEdges uid p st).sharedEdges ↔
      ((⟨.sharedEmail, uid, b⟩ : SharedEdge) ∈ st.sharedEdges ∨
        (userExists st uid = true ∧ p.email ≠ "" ∧ b ≠ uid ∧
          ∃ v ∈ st.users, v.id = b ∧ v.email = p.email)) := by
  unfold addSharedEmailEdges
  split
  case isTrue h =>
    simp only [List.mem_append, List.mem_map, List.mem_filter, decide_eq_true_eq]
    constructor
    · rintro (hmem | ⟨v, ⟨hv, hve, hvid⟩, heq⟩)
      · exact Or.inl hmem
      · refine Or.inr ⟨h.1, h.2, ?_, v, hv, ?_, hve⟩
        · have : v.id = b := by cases heq; rfl
          rw [← this]; exact hvid
        · cases heq; rfl
    · rintro (hmem | ⟨_, _, hb, v, hv, hvid, hve⟩)
      · exact Or.inl hmem
      · exact Or.inr ⟨v, ⟨hv, hve, by rw [hvid]; exact hb⟩, by rw [hvid]⟩
  case isFalse h =>
    constructor
    · exact Or.inl
    · rintro (hmem | ⟨h1, h2, _⟩)
      · exact hmem
      · exact absurd ⟨h1, h2⟩ h

/-- The Shared Phone query only adds `SHARED_PHONE` edges. -/
lemma mem_nonPhone_addSharedPhoneEdges (uid : String) (p : UserPayload) (st : GraphState)
    (e : SharedEdge) (hk : e.kind ≠ .sharedPhone) :
    (e ∈ (addSharedPhoneEdges uid p st).sharedEdges ↔ e ∈ st.sharedEdges) := by
  unfold addSharedPhoneEdges
  split
  · split
    · simp only [List.mem_append, List.mem_map]
      constructor
      · rintro (hmem | ⟨v, _, heq⟩)
        · exact hmem
        · exact absurd (by cases heq; rfl) hk
      · exact Or.inl
    · exact Iff.rfl
  · exact Iff.rfl

/-- The Shared Address query only adds `SHARED_ADDRESS` edges. -/
lemma mem_nonAddress_addSharedAddressEdges (uid : String) (p : UserPayload)
    (st : GraphState) (e : SharedEdge) (hk : e.kind ≠ .sharedAddress) :
    (e ∈ (addSharedAddressEdges uid p st).sharedEdges ↔ e ∈ st.sharedEdges) := by
  unfold addSharedAddressEdges
  split
  · split
    · split
      · simp only [List.mem_append, List.mem_flatMap, List.mem_map]
        constructor
        · rintro (hmem | ⟨_, _, r, _, heq⟩)
          · exact hmem
          · exact absurd (by cases heq; rfl) hk
        · exact Or.inl
      · exact Iff.rfl
    · exact Iff.rfl
  · exact Iff.rfl

/-- The Shared Payment Method queries only add `SHARED_PAYMENT_METHOD` edges. -/
lemma mem_nonPayment_sharedPaymentStep (uid : String) (acc : GraphState)
    (pm : PaymentMethod) (e : SharedEdge) (hk : e.kind ≠ .sharedPayment) :
    (e ∈ (sharedPaymentStep uid acc pm).sharedEdges ↔ e ∈ acc.sharedEdges) := by
  unfold sharedPaymentStep
  split
  · simp only [List.mem_append, List.mem_flatMap, List.mem_map]
    constructor
    · rintro (hmem | ⟨_, _, r, _, heq⟩)
      · exact hmem
      · exact absurd (by cases heq; rfl) hk
    · exact Or.inl
  · exact Iff.rfl

lemma mem_nonPayment_foldl_sharedPaymentStep (uid : String) (pms : List PaymentMethod)
    (st : GraphState) (e : SharedEdge) (hk : e.kind ≠ .sharedPayment) :
    (e ∈ (pms.foldl (sharedPaymentStep uid) st).sharedEdges ↔ e ∈ st.sharedEdges) := by
  induction pms generalizing st with
  | nil => exact Iff.rfl
  | cons pm rest ih =>
    rw [List.foldl_cons, ih _, mem_nonPayment_sharedPaymentStep _ _ _ _ hk]

lemma mem_nonPayment_addSharedPaymentEdges (uid : String) (p : UserPayload)
    (st : GraphState) (e : SharedEdge) (hk : e.kind ≠ .sharedPayment) :
    (e ∈ (addSharedPaymentEdges uid p st).sharedEdges ↔ e ∈ st.sharedEdges) := by
  unfold addSharedPaymentEdges
  split
  · exact mem_nonPayment_foldl_sharedPaymentStep _ _ _ _ hk
  · exact Iff.rfl

/-- Membership of a `SHARED_EMAIL` edge out of `uid` after the whole
re-derivation: it was already stored, or it is implied by the payload email
against the current user set. -/
lemma mem_email_createSharedRelationships (uid b : String) (p : UserPayload)
    (st : GraphState) :
    (⟨.sharedEmail, uid, b⟩ : SharedEdge) ∈ (createSharedRelationships uid p st).sharedEdges ↔
      ((⟨.sharedEmail, uid, b⟩ : SharedEdge) ∈ st.sharedEdges ∨
        (userExists st uid = true ∧ p.email ≠ "" ∧ b ≠ uid ∧
          ∃ v ∈ st.users, v.id = b ∧ v.email = p.email)) := by
  unfold createSharedRelationships
  rw [mem_nonPayment_addSharedPaymentEdges _ _ _ _ (by intro h; simp at h),
    mem_nonAddress_addSharedAddressEdges _ _ _ _ (by intro h; simp at h),
    mem_nonPhone_addSharedPhoneEdges _ _ _ _ (by intro h; simp at h),
    mem_email_addSharedEmailEdges]

/-! ### Structural lemmas about the user update steps -/

lemma replaceUserAddress_users (uid : String) (p : UserPayload) (st : GraphState) :
    (replaceUserAddress uid p st).users = st.users := by
  unfold replaceUserAddress
  split <;> rfl

lemma replaceUserAddress_sharedEdges (uid : String) (p : UserPayload) (st : GraphState) :
    (replaceUserAddress uid p st).sharedEdges = st.sharedEdges := by
  unfold replaceUserAddress
  split <;> rfl

lemma replaceUserAddress_userPayments (uid : String) (p : UserPayload) (st : GraphState) :
    (replaceUserAddress uid p st).userPayments = st.userPayments := by
  unfold replaceUserAddress
  split <;> rfl

lemma replaceUserPayments_users (uid : String) (p : UserPayload) (st : GraphState) :
    (replaceUserPayments uid p st).users = st.users := by
  unfold replaceUserPayments
  split
  · split <;> rfl
  · rfl

lemma replaceUserPayments_sharedEdges (uid : String) (p : UserPayload) (st : GraphState) :
    (replaceUserPayments uid p st).sharedEdges = st.sharedEdges := by
  unfold replaceUserPayments
  split
  · split <;> rfl
  · rfl

lemma replaceUserPayments_addresses (uid : String) (p : UserPayload) (st : GraphState) :
    (replaceUserPayments uid p st).addresses = st.addresses := by
  unfold replaceUserPayments
  split
  · split <;> rfl
  · rfl

lemma userExists_applyUserScalarUpdate (uid : String) (p : UserPayload) (now w : String)
    (st : GraphState) :
    userExists (applyUserScalarUpdate uid p now st) w = userExists st w := by
  unfold userExists applyUserScalarUpdate
  rw [List.any_map]
  congr 1
  funext u
  by_cases h : u.id = uid <;> simp [Function.comp, h]

lemma mem_deleteOutgoingSharedEdges (uid : String) (st : GraphState) (e : SharedEdge) :
    (e ∈ (deleteOutgoingSharedEdges uid st).sharedEdges ↔
      e ∈ st.sharedEdges ∧ e.src ≠ uid) := by
  unfold deleteOutgoingSharedEdges
  simp [List.mem_filter]

/-- The state after the satellite and edge-deletion steps of
`updateExistingUser` carries the scalar-updated user list. -/
lemma updateSteps_users (uid : String) (p : UserPayload) (now : String) (st : GraphState) :
    (deleteOutgoingSharedEdges uid (replaceUserPayments uid p (replaceUserAddress uid p
      (applyUserScalarUpdate uid p now st)))).users =
      (applyUserScalarUpdate uid p now st).users := by
  show (replaceUserPayments uid p (replaceUserAddress uid p
      (applyUserScalarUpdate uid p now st))).users = _
  rw [replaceUserPayments_users, replaceUserAddress_users]

lemma userExists_updateSteps (uid : String) (p : UserPayload) (now w : String)
    (st : GraphState) :
    userExists (deleteOutgoingSharedEdges uid (replaceUserPayments uid p
      (replaceUserAddress uid p (applyUserScalarUpdate uid p now st)))) w =
      userExists st w := by
  unfold userExists
  rw [updateSteps_users]
  exact userExists_applyUserScalarUpdate uid p now w st

/-- C1 (amended): after an `upsertPerson` update of user `uid`, the
outgoing `SHARED_EMAIL` edges of `uid` are exactly those implied by the
update payload's email against the resulting user set — every previous
outgoing shared edge is deleted and the new set is re-derived — while
incoming shared edges (created from some other user toward `uid`) are not
re-derived and may go stale. -/
theorem c1_update_rederives_outgoing_shared_email
    (newId now uid : String) (p : UserPayload) (st : GraphState)
    (hid : p.id = some uid) (hex : userExists st uid = true) :
    ∃ u st', upsertUser newId now p st = (.ok (u, false), st') ∧
      ∀ b, ((⟨.sharedEmail, uid, b⟩ : SharedEdge) ∈ st'.sharedEdges ↔
        (p.email ≠ "" ∧ b ≠ uid ∧ ∃ v ∈ st'.users, v.id = b ∧ v.email = p.email)) := by
  refine ⟨(updateExistingUser uid p st now).1, (updateExistingUser uid p st now).2, ?_, ?_⟩
  · unfold upsertUser
    rw [hid]
    simp [hex]
  · intro b
    show (⟨.sharedEmail, uid, b⟩ : SharedEdge) ∈ (createSharedRelationships uid p
      (deleteOutgoingSharedEdges uid (replaceUserPayments uid p (replaceUserAddress uid p
        (applyUserScalarUpdate uid p now st))))).sharedEdges ↔ _
    rw [mem_email_createSharedRelationships]
    have hnotold : (⟨.sharedEmail, uid, b⟩ : SharedEdge) ∉
        (deleteOutgoingSharedEdges uid (replaceUserPayments uid p (replaceUserAddress uid p
          (applyUserScalarUpdate uid p now st)))).sharedEdges := by
      rw [mem_deleteOutgoingSharedEdges]
      rintro ⟨-, hne⟩
      exact hne rfl
    have hex' : userExists (deleteOutgoingSharedEdges uid (replaceUserPayments uid p
        (replaceUserAddress uid p (applyUserScalarUpdate uid p now st)))) uid = true := by
      rw [userExists_updateSteps]
      exact hex
    have husers : ((updateExistingUser uid p st now).2).users =
        (deleteOutgoingSharedEdges uid (replaceUserPayments uid p (replaceUserAddress uid p
          (applyUserScalarUpdate uid p now st)))).users := by
      show (createSharedRelationships uid p _).users = _
      rw [createSharedRelationships_users]
    rw [husers]
    simp [hnotold, hex']

def c1PayloadA : UserPayload := ⟨none, "Ann", "A", "e1@x", none, none, none⟩

def c1PayloadB : UserPayload := ⟨none, "Bob", "B", "e1@x", none, none, none⟩

def c1PayloadUpd : UserPayload := ⟨some "a", "Ann", "A", "e2@x", none, none, none⟩

def c1StateA : GraphState := (upsertUser "a" "t0" c1PayloadA emptyGraph).2

def c1StateB : GraphState := (upsertUser "b" "t1" c1PayloadB c1StateA).2

def c1StateC : GraphState := (upsertUser "c" "t2" c1PayloadUpd c1StateB).2

/-- C1 (counterexample): create Ann (`a`, email `e1@x`), create Bob (`b`,
same email) — this stores one `SHARED_EMAIL` edge from `b` to `a` — then
update Ann's email to `e2@x`.  The update completes (isNew = false), the
two stored emails differ, yet the `SHARED_EMAIL` edge from `b` to `a`
still exists: the claim that no shared-email edge between them remains in
either direction is false on the code. -/
theorem c1_counterexample :
    (upsertUser "c" "t2" c1PayloadUpd c1StateB).1 =
      .ok (some ⟨"a", "Ann", "A", "e2@x", none, "t0", "t2"⟩, false) ∧
    c1StateC.users.map (fun u => (u.id, u.email)) = [("a", "e2@x"), ("b", "e1@x")] ∧
    (⟨.sharedEmail, "b", "a"⟩ : SharedEdge) ∈ c1StateC.sharedEdges := by
  refine ⟨by rfl, by decide, by decide⟩

/-- C1 (witness): the amended theorem applied to the concrete update of
Ann's email over the two-user state. -/
theorem c1_witness :
    c1PayloadUpd.id = some "a" ∧ userExists c1StateB "a" = true ∧
    ∃ u st', upsertUser "c" "t2" c1PayloadUpd c1StateB = (.ok (u, false), st') ∧
      ∀ b, ((⟨.sharedEmail, "a", b⟩ : SharedEdge) ∈ st'.sharedEdges ↔
        (c1PayloadUpd.email ≠ "" ∧ b ≠ "a" ∧
          ∃ v ∈ st'.users, v.id = b ∧ v.email = c1PayloadUpd.email)) :=
  ⟨rfl, by decide,
    c1_update_rederives_outgoing_shared_email "c" "t2" "a" c1PayloadUpd c1StateB rfl (by decide)⟩

/-! ### Creation path lemmas and claim C6 -/

lemma addNewUserSatellites_users (newId : String) (p : UserPayload) (st : GraphState) :
    (addNewUserSatellites newId p st).users = st.users := by
  unfold addNewUserSatellites
  rcases p.address with _ | a <;> rcases p.paymentMethods with _ | pms <;>
    simp only [] <;> first | rfl | (split <;> rfl)

lemma addNewUserSatellites_sharedEdges (newId : String) (p : UserPayload)
    (st : GraphState) :
    (addNewUserSatellites newId p st).sharedEdges = st.sharedEdges := by
  unfold addNewUserSatellites
  rcases p.address with _ | a <;> rcases p.paymentMethods with _ | pms <;>
    simp only [] <;> first | rfl | (split <;> rfl)

/-- The create path of `upsertUser` in closed form. -/
lemma upsertUser_create_eq (newId now : String) (p : UserPayload) (st : GraphState)
    (hid : p.id = none) :
    upsertUser newId now p st =
      (.ok (some (newUserRecord newId now p), true),
        createSharedRelationships newId p (addNewUserSatellites newId p
          { st with users := st.users ++ [newUserRecord newId now p] })) := by
  unfold upsertUser
  rw [hid]

lemma upsertUser_create_users (newId now : String) (p : UserPayload) (st : GraphState)
    (hid : p.id = none) :
    (upsertUser newId now p st).2.users = st.users ++ [newUserRecord newId now p] := by
  rw [upsertUser_create_eq newId now p st hid]
  show (createSharedRelationships _ _ _).users = _
  rw [createSharedRelationships_users, addNewUserSatellites_users]

/-- C6: for two Persons upserted (created) with the same nonempty email,
`getPersonConnections` reports a `SHARED_EMAIL` relationship in both
directions — the connection query matches the single stored edge with an
undirected pattern, so the visibility is symmetric regardless of which
user the edge was stored from. -/
theorem c6_shared_email_connections_symmetric
    (idA idB nowA nowB : String) (pA pB : UserPayload) (st : GraphState)
    (hidA : pA.id = none) (hidB : pB.id = none)
    (hemail : pA.email = pB.email) (hne : pB.email ≠ "") (hAB : idA ≠ idB) :
    (∃ r ∈ directRelationships (upsertUser idB nowB pB (upsertUser idA nowA pA st).2).2 idA,
        r.relationshipType = "SHARED_EMAIL" ∧ r.user.id = idB) ∧
    (∃ r ∈ directRelationships (upsertUser idB nowB pB (upsertUser idA nowA pA st).2).2 idB,
        r.relationshipType = "SHARED_EMAIL" ∧ r.user.id = idA) := by
  set recA := newUserRecord idA nowA pA with hrecA
  set recB := newUserRecord idB nowB pB with hrecB
  set stA := (upsertUser idA nowA pA st).2 with hstA
  set stB := (upsertUser idB nowB pB stA).2 with hstB
  have hAusers : stA.users = st.users ++ [recA] := upsertUser_create_users _ _ _ _ hidA
  have hBusers : stB.users = stA.users ++ [recB] := upsertUser_create_users _ _ _ _ hidB
  have hrecA_mem : recA ∈ stB.users := by
    rw [hBusers, hAusers]
    simp
  have hrecB_mem : recB ∈ stB.users := by
    rw [hBusers]
    simp
  -- the derived edge stored when B was written
  have hedge : (⟨.sharedEmail, idB, idA⟩ : SharedEdge) ∈ stB.sharedEdges := by
    rw [hstB, upsertUser_create_eq idB nowB pB stA hidB]
    show _ ∈ (createSharedRelationships idB pB _).sharedEdges
    rw [mem_email_createSharedRelationships]
    refine Or.inr ⟨?_, hne, hAB.symm ∘ Eq.symm, recA, ?_, rfl, hemail⟩
    · unfold userExists
      rw [addNewUserSatellites_users]
      refine List.any_eq_true.mpr ⟨recB, by simp, by simp [hrecB, newUserRecord]⟩
    · rw [addNewUserSatellites_users]
      show recA ∈ stA.users ++ [recB]
      rw [hAusers]
      simp
  have hexA : userExists stB idA = true := by
    unfold userExists
    exact List.any_eq_true.mpr ⟨recA, hrecA_mem, by simp [hrecA, newUserRecord]⟩
  have hexB : userExists stB idB = true := by
    unfold userExists
    exact List.any_eq_true.mpr ⟨recB, hrecB_mem, by simp [hrecB, newUserRecord]⟩
  constructor
  · -- connections of A contain B
    unfold directRelationships
    rw [hexA, if_pos rfl]
    rcases hfind : stB.users.find? (fun u => decide (u.id = idB)) with _ | w
    · exfalso
      have : (stB.users.find? (fun u => decide (u.id = idB))).isSome :=
        List.find?_isSome.mpr ⟨recB, hrecB_mem, by simp [hrecB, newUserRecord]⟩
      rw [hfind] at this
      exact Bool.noConfusion this
    · refine ⟨⟨SharedKind.relName .sharedEmail, publicOf w⟩, ?_, rfl, ?_⟩
      · refine List.mem_filterMap.mpr ⟨⟨.sharedEmail, idB, idA⟩, hedge, ?_⟩
        rw [if_neg ?_, if_pos rfl]
        · show (stB.users.find? (fun u => decide (u.id = idB))).map _ = _
          rw [hfind]
          rfl
        · show ¬ idB = idA
          exact fun h => hAB h.symm
      · have := List.find?_some hfind
        simpa using this
  · -- connections of B contain A
    unfold directRelationships
    rw [hexB, if_pos rfl]
    rcases hfind : stB.users.find? (fun u => decide (u.id = idA)) with _ | w
    · exfalso
      have : (stB.users.find? (fun u => decide (u.id = idA))).isSome :=
        List.find?_isSome.mpr ⟨recA, hrecA_mem, by simp [hrecA, newUserRecord]⟩
      rw [hfind] at this
      exact Bool.noConfusion this
    · refine ⟨⟨SharedKind.relName .sharedEmail, publicOf w⟩, ?_, rfl, ?_⟩
      · refine List.mem_filterMap.mpr ⟨⟨.sharedEmail, idB, idA⟩, hedge, ?_⟩
        rw [if_pos rfl]
        show (stB.users.find? (fun u => decide (u.id = idA))).map _ = _
        rw [hfind]
        rfl
      · have := List.find?_some hfind
        simpa using this

/-- C6 (witness): the theorem applied to two concretely created users
sharing the email `e1@x`. -/
theorem c6_witness :
    c1PayloadA.id = none ∧ c1PayloadB.id = none ∧
    c1PayloadA.email = c1PayloadB.email ∧ c1PayloadB.email ≠ "" ∧ ("a" : String) ≠ "b" ∧
    ((∃ r ∈ directRelationships
        (upsertUser "b" "t1" c1PayloadB (upsertUser "a" "t0" c1PayloadA emptyGraph).2).2 "a",
        r.relationshipType = "SHARED_EMAIL" ∧ r.user.id = "b") ∧
      (∃ r ∈ directRelationships
        (upsertUser "b" "t1" c1PayloadB (upsertUser "a" "t0" c1PayloadA emptyGraph).2).2 "b",
        r.relationshipType = "SHARED_EMAIL" ∧ r.user.id = "a")) :=
  ⟨rfl, rfl, rfl, by decide, by decide,
    c6_shared_email_connections_symmetric "a" "b" "t0" "t1" c1PayloadA c1PayloadB emptyGraph
      rfl rfl rfl (by decide) (by decide)⟩

/-! ### Structural lemmas about the transaction write steps -/

lemma deleteTxSatellites_sentEdges (tid : String) (st : GraphState) :
    (deleteTxSatellites tid st).sentEdges = st.sentEdges := rfl

lemma deleteTxSatellites_receivedBy (tid : String) (st : GraphState) :
    (deleteTxSatellites tid st).receivedBy = st.receivedBy := rfl

lemma deleteTxSatellites_transactions (tid : String) (st : GraphState) :
    (deleteTxSatellites tid st).transactions = st.transactions := rfl

lemma applyTxScalarUpdate_sentEdges (tid : String) (p : TransactionPayload)
    (s r : String) (st : GraphState) :
    (applyTxScalarUpdate tid p s r st).sentEdges = st.sentEdges := rfl

lemma applyTxScalarUpdate_receivedBy (tid : String) (p : TransactionPayload)
    (s r : String) (st : GraphState) :
    (applyTxScalarUpdate tid p s r st).receivedBy = st.receivedBy := rfl

lemma addTxDeviceNode_transactions (tid : String) (p : TransactionPayload)
    (st : GraphState) :
    (addTxDeviceNode tid p st).transactions = st.transactions := by
  unfold addTxDeviceNode
  split <;> rfl

lemma addTxPaymentNode_transactions (tid : String) (p : TransactionPayload)
    (st : GraphState) :
    (addTxPaymentNode tid p st).transactions = st.transactions := by
  unfold addTxPaymentNode
  split <;> rfl

lemma createRelatedEntities_transactions (tid : String) (p : TransactionPayload)
    (st : GraphState) :
    (createRelatedEntities tid p st).transactions = st.transactions := by
  unfold createRelatedEntities
  rw [addTxPaymentNode_transactions, addTxDeviceNode_transactions]

lemma addTxDeviceNode_sentEdges (tid : String) (p : TransactionPayload)
    (st : GraphState) :
    (addTxDeviceNode tid p st).sentEdges = st.sentEdges := by
  unfold addTxDeviceNode
  split <;> rfl

lemma addTxPaymentNode_sentEdges (tid : String) (p : TransactionPayload)
    (st : GraphState) :
    (addTxPaymentNode tid p st).sentEdges = st.sentEdges := by
  unfold addTxPaymentNode
  split <;> rfl

lemma createRelatedEntities_sentEdges (tid : String) (p : TransactionPayload)
    (st : GraphState) :
    (createRelatedEntities tid p st).sentEdges = st.sentEdges := by
  unfold createRelatedEntities
  rw [addTxPaymentNode_sentEdges, addTxDeviceNode_sentEdges]

lemma addTxDeviceNode_receivedBy (tid : String) (p : TransactionPayload)
    (st : GraphState) :
    (addTxDeviceNode tid p st).receivedBy = st.receivedBy := by
  unfold addTxDeviceNode
  split <;> rfl

lemma addTxPaymentNode_receivedBy (tid : String) (p : TransactionPayload)
    (st : GraphState) :
    (addTxPaymentNode tid p st).receivedBy = st.receivedBy := by
  unfold addTxPaymentNode
  split <;> rfl

lemma createRelatedEntities_receivedBy (tid : String) (p : TransactionPayload)
    (st : GraphState) :
    (createRelatedEntities tid p st).receivedBy = st.receivedBy := by
  unfold createRelatedEntities
  rw [addTxPaymentNode_receivedBy, addTxDeviceNode_receivedBy]

lemma mergeTxEdge_transactions (st : GraphState) (k : TxSharedKind) (a b : String) :
    (mergeTxEdge st k a b).transactions = st.transactions := by
  unfold mergeTxEdge
  split <;> rfl

lemma mergeTxEdge_sentEdges (st : GraphState) (k : TxSharedKind) (a b : String) :
    (mergeTxEdge st k a b).sentEdges = st.sentEdges := by
  unfold mergeTxEdge
  split <;> rfl

lemma mergeTxEdge_receivedBy (st : GraphState) (k : TxSharedKind) (a b : String) :
    (mergeTxEdge st k a b).receivedBy = st.receivedBy := by
  unfold mergeTxEdge
  split <;> rfl

lemma foldl_mergeTxEdge_transactions {α : Type} (k : TxSharedKind) (a : String)
    (g : α → String) (l : List α) (st : GraphState) :
    (l.foldl (fun acc d => mergeTxEdge acc k a (g d)) st).transactions =
      st.transactions := by
  induction l generalizing st with
  | nil => rfl
  | cons x xs ih => rw [List.foldl_cons, ih, mergeTxEdge_transactions]

lemma foldl_mergeTxEdge_sentEdges {α : Type} (k : TxSharedKind) (a : String)
    (g : α → String) (l : List α) (st : GraphState) :
    (l.foldl (fun acc d => mergeTxEdge acc k a (g d)) st).sentEdges = st.sentEdges := by
  induction l generalizing st with
  | nil => rfl
  | cons x xs ih => rw [List.foldl_cons, ih, mergeTxEdge_sentEdges]

lemma foldl_mergeTxEdge_receivedBy {α : Type} (k : TxSharedKind) (a : String)
    (g : α → String) (l : List α) (st : GraphState) :
    (l.foldl (fun acc d => mergeTxEdge acc k a (g d)) st).receivedBy = st.receivedBy := by
  induction l generalizing st with
  | nil => rfl
  | cons x xs ih => rw [List.foldl_cons, ih, mergeTxEdge_receivedBy]

lemma addTxSharedIpEdges_transactions (tid : String) (p : TransactionPayload)
    (st : GraphState) :
    (addTxSharedIpEdges tid p st).transactions = st.transactions := by
  unfold addTxSharedIpEdges
  split
  · split
    · exact foldl_mergeTxEdge_transactions .sharedIp tid (fun (d : DeviceNode) => d.txId) _ _
    · rfl
  · rfl

lemma addTxSharedDeviceEdges_transactions (tid : String) (p : TransactionPayload)
    (st : GraphState) :
    (addTxSharedDeviceEdges tid p st).transactions = st.transactions := by
  unfold addTxSharedDeviceEdges
  split
  · exact foldl_mergeTxEdge_transactions .sharedDevice tid (fun (t : Transaction) => t.id) _ _
  · rfl

lemma createTxSharedRelationships_transactions (tid : String) (p : TransactionPayload)
    (st : GraphState) :
    (createTxSharedRelationships tid p st).transactions = st.transactions := by
  unfold createTxSharedRelationships
  rw [addTxSharedDeviceEdges_transactions, addTxSharedIpEdges_transactions]

lemma addTxSharedIpEdges_sentEdges (tid : String) (p : TransactionPayload)
    (st : GraphState) :
    (addTxSharedIpEdges tid p st).sentEdges = st.sentEdges := by
  unfold addTxSharedIpEdges
  split
  · split
    · exact foldl_mergeTxEdge_sentEdges .sharedIp tid (fun (d : DeviceNode) => d.txId) _ _
    · rfl
  · rfl

lemma addTxSharedDeviceEdges_sentEdges (tid : String) (p : TransactionPayload)
    (st : GraphState) :
    (addTxSharedDeviceEdges tid p st).sentEdges = st.sentEdges := by
  unfold addTxSharedDeviceEdges
  split
  · exact foldl_mergeTxEdge_sentEdges .sharedDevice tid (fun (t : Transaction) => t.id) _ _
  · rfl

lemma createTxSharedRelationships_sentEdges (tid : String) (p : TransactionPayload)
    (st : GraphState) :
    (createTxSharedRelationships tid p st).sentEdges = st.sentEdges := by
  unfold createTxSharedRelationships
  rw [addTxSharedDeviceEdges_sentEdges, addTxSharedIpEdges_sentEdges]

lemma addTxSharedIpEdges_receivedBy (tid : String) (p : TransactionPayload)
    (st : GraphState) :
    (addTxSharedIpEdges tid p st).receivedBy = st.receivedBy := by
  unfold addTxSharedIpEdges
  split
  · split
    · exact foldl_mergeTxEdge_receivedBy .sharedIp tid (fun (d : DeviceNode) => d.txId) _ _
    · rfl
  · rfl

lemma addTxSharedDeviceEdges_receivedBy (tid : String) (p : TransactionPayload)
    (st : GraphState) :
    (addTxSharedDeviceEdges tid p st).receivedBy = st.receivedBy := by
  unfold addTxSharedDeviceEdges
  split
  · exact foldl_mergeTxEdge_receivedBy .sharedDevice tid (fun (t : Transaction) => t.id) _ _
  · rfl

lemma createTxSharedRelationships_receivedBy (tid : String) (p : TransactionPayload)
    (st : GraphState) :
    (createTxSharedRelationships tid p st).receivedBy = st.receivedBy := by
  unfold createTxSharedRelationships
  rw [addTxSharedDeviceEdges_receivedBy, addTxSharedIpEdges_receivedBy]

lemma findTx_txExists (st : GraphState) (tid : String) (cur : Transaction)
    (h : findTx st tid = some cur) : txExists st tid = true := by
  unfold findTx at h
  have hm := List.mem_of_find?_eq_some h
  have hp := List.find?_some h
  exact List.any_eq_true.mpr ⟨cur, hm, hp⟩

lemma txExists_findTx (st : GraphState) (tid : String) (h : txExists st tid = true) :
    ∃ cur, findTx st tid = some cur := by
  unfold txExists at h
  rcases List.any_eq_true.mp h with ⟨t, ht, hp⟩
  exact Option.isSome_iff_exists.mp (List.find?_isSome.mpr ⟨t, ht, hp⟩)

/-- The no-repointing update in closed form: when neither payer nor
receiver id is supplied, the existence checks are skipped, the edges are
left alone and the `SET` falls back to the stored sender/receiver. -/
lemma updateExistingTransaction_noRepoint (tid : String) (p : TransactionPayload)
    (st : GraphState) (cur : Transaction)
    (hfind : findTx st tid = some cur)
    (hs : strTruthy p.senderId = none) (hr : strTruthy p.receiverId = none) :
    updateExistingTransaction tid p st = .ok
      ((applyTxScalarUpdate tid p cur.senderId cur.receiverId st).transactions.find?
          (fun t => decide (t.id = tid)),
        createTxSharedRelationships tid p (createRelatedEntities tid p
          (deleteTxSatellites tid
            (applyTxScalarUpdate tid p cur.senderId cur.receiverId st)))) := by
  unfold updateExistingTransaction
  rw [hs, hr, hfind]
  simp

/-- C7 (amended): on an `upsertTransfer` update in which neither payer nor
receiver id is supplied, the `SENT`/`RECEIVED_BY` edges are left untouched
and the stored `senderId`/`receiverId` are preserved, but every other
scalar field is overwritten with the payload value — a field absent from
the partial payload is therefore set to null, not kept at its stored
value. -/
theorem c7_update_overwrites_unsupplied_scalars
    (newId tid : String) (p : TransactionPayload) (st : GraphState) (cur : Transaction)
    (hid : p.id = some tid) (hfind : findTx st tid = some cur)
    (hs : strTruthy p.senderId = none) (hr : strTruthy p.receiverId = none) :
    ∃ tr st', upsertTransaction newId p st = (.ok (tr, false), st') ∧
      st'.sentEdges = st.sentEdges ∧ st'.receivedBy = st.receivedBy ∧
      ∀ t ∈ st'.transactions, t.id = tid →
        (t.senderId = cur.senderId ∧ t.receiverId = cur.receiverId ∧
          t.transactionType = p.transactionType ∧ t.status = p.status ∧
          t.amount = p.amount ∧ t.currency = p.currency ∧
          t.timestamp = p.timestamp ∧
          t.destinationAmount = ratTruthy p.destinationAmount ∧
          t.destinationCurrency = strTruthy p.destinationCurrency ∧
          t.description = strTruthy p.description ∧
          t.deviceId = strTruthy p.deviceId) := by
  have htx : txExists st tid = true := findTx_txExists st tid cur hfind
  refine ⟨(applyTxScalarUpdate tid p cur.senderId cur.receiverId st).transactions.find?
      (fun t => decide (t.id = tid)),
    createTxSharedRelationships tid p (createRelatedEntities tid p
      (deleteTxSatellites tid (applyTxScalarUpdate tid p cur.senderId cur.receiverId st))),
    ?_, ?_, ?_, ?_⟩
  · unfold upsertTransaction
    rw [hid]
    simp only [htx, if_true]
    rw [updateExistingTransaction_noRepoint tid p st cur hfind hs hr]
  · rw [createTxSharedRelationships_sentEdges, createRelatedEntities_sentEdges,
      deleteTxSatellites_sentEdges, applyTxScalarUpdate_sentEdges]
  · rw [createTxSharedRelationships_receivedBy, createRelatedEntities_receivedBy,
      deleteTxSatellites_receivedBy, applyTxScalarUpdate_receivedBy]
  · intro t ht htid
    rw [createTxSharedRelationships_transactions, createRelatedEntities_transactions,
      deleteTxSatellites_transactions] at ht
    rcases List.mem_map.mp ht with ⟨u, hu, rfl⟩
    by_cases h : u.id = tid
    · simp [h]
    · rw [if_neg h] at htid
      exact absurd htid h

def demoUsers : GraphState :=
  { emptyGraph with users :=
      [⟨"a", "Ann", "A", "ea@x", none, "t0", "t0"⟩,
        ⟨"b", "Bob", "B", "eb@x", none, "t0", "t0"⟩] }

def demoTxCreate : TransactionPayload :=
  ⟨none, some "TRANSFER", some "PENDING", some "a", some "b", some 100, some "USD",
    none, none, some "ts1", none, some "dev1", none, none⟩

def demoTxState : GraphState := (upsertTransaction "t1" demoTxCreate demoUsers).2

def demoStatusOnly : TransactionPayload :=
  ⟨some "t1", none, some "COMPLETED", none, none, none, none, none, none, none, none,
    none, none, none⟩

/-- C7 (counterexample): a transaction stored with type TRANSFER, amount
100, currency USD, timestamp ts1 and device dev1 is updated with a payload
supplying only the status.  The update succeeds, but the unsupplied
scalar fields do not keep their stored values: they all come back null. -/
theorem c7_counterexample :
    findTx demoTxState "t1" = some ⟨"t1", some "TRANSFER", some "PENDING", "a", "b",
      some 100, some "USD", none, none, some "ts1", none, some "dev1"⟩ ∧
    (upsertTransaction "zz" demoStatusOnly demoTxState).1 =
      .ok (some ⟨"t1", none, some "COMPLETED", "a", "b", none, none, none, none, none,
        none, none⟩, false) ∧
    findTx (upsertTransaction "zz" demoStatusOnly demoTxState).2 "t1" =
      some ⟨"t1", none, some "COMPLETED", "a", "b", none, none, none, none, none,
        none, none⟩ :=
  ⟨by decide, by rfl, by decide⟩

/-- C7 (witness): the amended theorem applied to the status-only update of
the stored demo transaction. -/
theorem c7_witness :
    demoStatusOnly.id = some "t1" ∧
    findTx demoTxState "t1" = some ⟨"t1", some "TRANSFER", some "PENDING", "a", "b",
      some 100, some "USD", none, none, some "ts1", none, some "dev1"⟩ ∧
    strTruthy demoStatusOnly.senderId = none ∧
    strTruthy demoStatusOnly.receiverId = none ∧
    ∃ tr st', upsertTransaction "zz" demoStatusOnly demoTxState = (.ok (tr, false), st') ∧
      st'.sentEdges = demoTxState.sentEdges ∧ st'.receivedBy = demoTxState.receivedBy ∧
      ∀ t ∈ st'.transactions, t.id = "t1" →
        (t.senderId = "a" ∧ t.receiverId = "b" ∧
          t.transactionType = demoStatusOnly.transactionType ∧
          t.status = demoStatusOnly.status ∧
          t.amount = demoStatusOnly.amount ∧ t.currency = demoStatusOnly.currency ∧
          t.timestamp = demoStatusOnly.timestamp ∧
          t.destinationAmount = ratTruthy demoStatusOnly.destinationAmount ∧
          t.destinationCurrency = strTruthy demoStatusOnly.destinationCurrency ∧
          t.description = strTruthy demoStatusOnly.description ∧
          t.deviceId = strTruthy demoStatusOnly.deviceId) :=
  ⟨rfl, by decide, rfl, rfl,
    c7_update_overwrites_unsupplied_scalars "zz" "t1" demoStatusOnly demoTxState
      ⟨"t1", some "TRANSFER", some "PENDING", "a", "b", some 100, some "USD", none,
        none, some "ts1", none, some "dev1"⟩ rfl (by decide) rfl rfl⟩

/-! ### Claims C4 and C5: the upsert decision rule and its validations -/

/-- C4 (amended): the upsert decision rule for both entity kinds.  An id
that resolves yields an update with isNew = false; no id yields a create
with isNew = true; an id that does not resolve makes the call fail and
leaves the state untouched — but the 404 not-found error raised inside the
transaction is caught and re-thrown wrapped in a generic `AppError` built
without a status code (only the message still names the missing id and
kind), so the surfaced error does not carry the 404 classification. -/
theorem c4_upsert_decision_rule :
    (∀ newId now p st uid, p.id = some uid → userExists st uid = true →
      ∃ u st', upsertUser newId now p st = (.ok (u, false), st')) ∧
    (∀ newId now p st uid, p.id = some uid → userExists st uid = false →
      upsertUser newId now p st =
        (.error (wrapUserError ⟨"User with ID " ++ uid ++ " not found", some 404⟩), st)) ∧
    (∀ newId now p st, p.id = none →
      ∃ st', upsertUser newId now p st =
        (.ok (some (newUserRecord newId now p), true), st')) ∧
    (∀ newId p st tid, p.id = some tid → txExists st tid = true →
      strTruthy p.senderId = none → strTruthy p.receiverId = none →
      ∃ tr st', upsertTransaction newId p st = (.ok (tr, false), st')) ∧
    (∀ newId p st tid, p.id = some tid → txExists st tid = false →
      upsertTransaction newId p st =
        (.error (wrapTxError
          ⟨"Transaction with ID " ++ tid ++ " not found", some 404⟩), st)) ∧
    (∀ newId p st s r, p.id = none → p.senderId = some s → p.receiverId = some r →
      userExists st s = true → userExists st r = true → s ≠ r →
      ∃ tr st', upsertTransaction newId p st = (.ok (tr, true), st')) := by
  refine ⟨?_, ?_, ?_, ?_, ?_, ?_⟩
  · intro newId now p st uid hid hex
    refine ⟨(updateExistingUser uid p st now).1, (updateExistingUser uid p st now).2, ?_⟩
    unfold upsertUser
    rw [hid]
    simp [hex]
  · intro newId now p st uid hid hex
    unfold upsertUser
    rw [hid]
    simp [hex]
  · intro newId now p st hid
    unfold upsertUser
    rw [hid]
    exact ⟨_, rfl⟩
  · intro newId p st tid hid htx hs hr
    obtain ⟨cur, hcur⟩ := txExists_findTx st tid htx
    unfold upsertTransaction
    rw [hid]
    simp only [htx, if_true]
    rw [updateExistingTransaction_noRepoint tid p st cur hcur hs hr]
    exact ⟨_, _, rfl⟩
  · intro newId p st tid hid htx
    unfold upsertTransaction
    rw [hid]
    simp [htx]
  · intro newId p st s r hid hs hr hsx hrx hsr
    unfold upsertTransaction
    rw [hid]
    simp only [hs, hr, hsx, hrx]
    rw [if_neg (by simp), if_neg (by simp), if_neg (by simp [hsr])]
    exact ⟨_, _, rfl⟩

def demoMissingTx : TransactionPayload :=
  ⟨some "zz", none, none, none, none, none, none, none, none, none, none, none,
    none, none⟩

/-- C4 (counterexample): upserting a Person with an id that does not exist
fails and mutates nothing, but the surfaced error is the generic coordinator
wrap, whose status classification is not the 404 of a NotFoundError — the
branch of the claim asserting the call fails *with a NotFoundError* is
false on the code. -/
theorem c4_counterexample :
    (upsertUser "x" "t9" c1PayloadUpd emptyGraph).2 = emptyGraph ∧
    (upsertUser "x" "t9" c1PayloadUpd emptyGraph).1 =
      .error ⟨"Error while upserting user: User with ID a not found", none⟩ ∧
    ¬ ∃ e, (upsertUser "x" "t9" c1PayloadUpd emptyGraph).1 = .error e ∧
      e.statusCode = some 404 := by
  refine ⟨by decide, by rfl, ?_⟩
  rintro ⟨e, he, hsc⟩
  have h2 : (upsertUser "x" "t9" c1PayloadUpd emptyGraph).1 =
      .error ⟨"Error while upserting user: User with ID a not found", none⟩ := rfl
  rw [h2] at he
  injection he with h
  rw [← h] at hsc
  simp at hsc

/-- C4 (witness): the six branches of the decision rule at concrete inputs. -/
theorem c4_witness :
    (∃ u st', upsertUser "n1" "t9" c1PayloadUpd c1StateB = (.ok (u, false), st')) ∧
    (upsertUser "n1" "t9" c1PayloadUpd emptyGraph =
      (.error (wrapUserError ⟨"User with ID a not found", some 404⟩), emptyGraph)) ∧
    (∃ st', upsertUser "n1" "t9" c1PayloadA emptyGraph =
      (.ok (some (newUserRecord "n1" "t9" c1PayloadA), true), st')) ∧
    (∃ tr st', upsertTransaction "n2" demoStatusOnly demoTxState =
      (.ok (tr, false), st')) ∧
    (upsertTransaction "n2" demoMissingTx demoUsers =
      (.error (wrapTxError ⟨"Transaction with ID zz not found", some 404⟩), demoUsers)) ∧
    (∃ tr st', upsertTransaction "t2" demoTxCreate demoUsers = (.ok (tr, true), st')) :=
  ⟨c4_upsert_decision_rule.1 "n1" "t9" c1PayloadUpd c1StateB "a" rfl (by decide),
    c4_upsert_decision_rule.2.1 "n1" "t9" c1PayloadUpd emptyGraph "a" rfl (by decide),
    c4_upsert_decision_rule.2.2.1 "n1" "t9" c1PayloadA emptyGraph rfl,
    c4_upsert_decision_rule.2.2.2.1 "n2" demoStatusOnly demoTxState "t1" rfl (by decide)
      rfl rfl,
    c4_upsert_decision_rule.2.2.2.2.1 "n2" demoMissingTx demoUsers "zz" rfl (by decide),
    c4_upsert_decision_rule.2.2.2.2.2 "t2" demoTxCreate demoUsers "a" "b" rfl rfl rfl
      (by decide) (by decide) (by decide)⟩

/-- C5 (amended): an `upsertTransfer` create whose payload names the same
existing Person as payer and payee always fails and leaves the stored
state unchanged (no Transaction node, no `SENT`/`RECEIVED_BY` edge).  The
underlying error is the 400 ValidationError thrown inside the transaction,
but the coordinator catch block re-throws it wrapped in a generic
`AppError` without the 400 status; and when the shared id does not resolve
to an existing Person, the 404 existence check fires first instead. -/
theorem c5_same_sender_receiver_rejected
    (newId : String) (p : TransactionPayload) (st : GraphState) (s : String)
    (hid : p.id = none) (hs : p.senderId = some s) (hr : p.receiverId = some s)
    (hex : userExists st s = true) :
    upsertTransaction newId p st =
      (.error (wrapTxError ⟨"Sender and receiver cannot be the same user", some 400⟩), st) := by
  unfold upsertTransaction
  rw [hid]
  simp [hs, hr, hex]

def c5SamePayload : TransactionPayload :=
  ⟨none, some "TRANSFER", some "PENDING", some "a", some "a", some 100, some "USD",
    none, none, some "ts1", none, none, none, none⟩

/-- C5 (counterexample): a create with payer = payee = the existing Person
`a` fails and creates nothing, but the surfaced error carries no 400
classification — the claim that the call fails *with a ValidationError
(400-equivalent)* is false on the code, because the catch block re-wraps
the error without its status. -/
theorem c5_counterexample :
    (upsertTransaction "t9" c5SamePayload demoUsers).2 = demoUsers ∧
    (upsertTransaction "t9" c5SamePayload demoUsers).1 =
      .error ⟨"Error while upserting transaction: Sender and receiver cannot be the same user",
        none⟩ ∧
    ¬ ∃ e, (upsertTransaction "t9" c5SamePayload demoUsers).1 = .error e ∧
      e.statusCode = some 400 := by
  refine ⟨by decide, by rfl, ?_⟩
  rintro ⟨e, he, hsc⟩
  have h2 : (upsertTransaction "t9" c5SamePayload demoUsers).1 =
      .error ⟨"Error while upserting transaction: Sender and receiver cannot be the same user",
        none⟩ := rfl
  rw [h2] at he
  injection he with h
  rw [← h] at hsc
  simp at hsc

/-- C5 (witness): the amended theorem applied to the concrete same-payer
payload over the two-user state. -/
theorem c5_witness :
    c5SamePayload.id = none ∧ c5SamePayload.senderId = some "a" ∧
    c5SamePayload.receiverId = some "a" ∧ userExists demoUsers "a" = true ∧
    upsertTransaction "t9" c5SamePayload demoUsers =
      (.error (wrapTxError ⟨"Sender and receiver cannot be the same user", some 400⟩),
        demoUsers) :=
  ⟨rfl, rfl, rfl, by decide,
    c5_same_sender_receiver_rejected "t9" c5SamePayload demoUsers "a" rfl rfl rfl (by decide)⟩

/-! ### Claim C10: partial-update semantics of the Person update -/

lemma applyUserScalarUpdate_users (uid : String) (p : UserPayload) (now : String)
    (st : GraphState) :
    (applyUserScalarUpdate uid p now st).users = st.users.map (fun u =>
      if u.id = uid then
        { u with firstName := p.firstName, lastName := p.lastName,
                 phone := strTruthy p.phone, updatedAt := now, email := p.email }
      else u) := rfl

/-- C10: on an `upsertPerson` update, the scalar fields `firstName`,
`lastName`, `email` and `phone` are overwritten unconditionally with the
payload values (an omitted phone is stored as null), while the Address
satellite is deleted-and-recreated only when the payload carries an
address and the PaymentMethod satellites only when it carries a nonempty
list; otherwise the satellites are left untouched. -/
theorem c10_partial_update_user_fields
    (newId now uid : String) (p : UserPayload) (st : GraphState)
    (hid : p.id = some uid) (hex : userExists st uid = true) :
    ∃ u st', upsertUser newId now p st = (.ok (u, false), st') ∧
      (∀ v ∈ st'.users, v.id = uid →
        v.firstName = p.firstName ∧ v.lastName = p.lastName ∧ v.email = p.email ∧
          v.phone = strTruthy p.phone) ∧
      (∀ a, p.address = some a →
        st'.addresses =
          st.addresses.filter (fun (r : String × Address) => decide (r.1 ≠ uid)) ++
            [(uid, sanitizeAddress a)]) ∧
      (p.address = none → st'.addresses = st.addresses) ∧
      (∀ pms, p.paymentMethods = some pms → pms ≠ [] →
        st'.userPayments =
          st.userPayments.filter
            (fun (r : String × PaymentMethod) => decide (r.1 ≠ uid)) ++
            pms.map (fun pm => (uid, pm))) ∧
      ((p.paymentMethods = none ∨ p.paymentMethods = some []) →
        st'.userPayments = st.userPayments) := by
  have husers : ((updateExistingUser uid p st now).2).users =
      (applyUserScalarUpdate uid p now st).users := by
    show (createSharedRelationships uid p _).users = _
    rw [createSharedRelationships_users, updateSteps_users]
  have haddr : ((updateExistingUser uid p st now).2).addresses =
      (replaceUserAddress uid p (applyUserScalarUpdate uid p now st)).addresses := by
    show (createSharedRelationships uid p _).addresses = _
    rw [createSharedRelationships_addresses]
    show (replaceUserPayments uid p _).addresses = _
    rw [replaceUserPayments_addresses]
  have hpay : ((updateExistingUser uid p st now).2).userPayments =
      (replaceUserPayments uid p (replaceUserAddress uid p
        (applyUserScalarUpdate uid p now st))).userPayments := by
    show (createSharedRelationships uid p _).userPayments = _
    rw [createSharedRelationships_userPayments]
    rfl
  refine ⟨(updateExistingUser uid p st now).1, (updateExistingUser uid p st now).2,
    ?_, ?_, ?_, ?_, ?_, ?_⟩
  · unfold upsertUser
    rw [hid]
    simp [hex]
  · intro v hv hvid
    rw [husers, applyUserScalarUpdate_users] at hv
    rcases List.mem_map.mp hv with ⟨u, hu, rfl⟩
    by_cases h : u.id = uid
    · simp [h]
    · rw [if_neg h] at hvid
      exact absurd hvid h
  · intro a ha
    rw [haddr]
    unfold replaceUserAddress
    simp only [ha]
    rfl
  · intro ha
    rw [haddr]
    unfold replaceUserAddress
    simp only [ha]
    rfl
  · intro pms hpm hne
    rw [hpay]
    unfold replaceUserPayments
    simp only [hpm]
    rw [if_pos hne, replaceUserAddress_userPayments]
    rfl
  · rintro (hpm | hpm) <;> rw [hpay] <;> unfold replaceUserPayments <;> simp only [hpm]
    · rw [replaceUserAddress_userPayments]
      rfl
    · rw [if_neg (by simp), replaceUserAddress_userPayments]
      rfl

def c10Payload : UserPayload :=
  ⟨some "a", "Al", "B", "e9@x", none,
    some ⟨some "s1", some "c1", none, none, none⟩, some [⟨"pm1", "CARD"⟩]⟩

/-- C10 (witness): the theorem applied to a concrete update of user `a`
supplying an address group and a nonempty payment-method group. -/
theorem c10_witness :
    c10Payload.id = some "a" ∧ userExists c1StateB "a" = true ∧
    ∃ u st', upsertUser "n9" "t9" c10Payload c1StateB = (.ok (u, false), st') ∧
      (∀ v ∈ st'.users, v.id = "a" →
        v.firstName = c10Payload.firstName ∧ v.lastName = c10Payload.lastName ∧
          v.email = c10Payload.email ∧ v.phone = strTruthy c10Payload.phone) ∧
      (∀ a, c10Payload.address = some a →
        st'.addresses =
          c1StateB.addresses.filter (fun (r : String × Address) => decide (r.1 ≠ "a")) ++
            [("a", sanitizeAddress a)]) ∧
      (c10Payload.address = none → st'.addresses = c1StateB.addresses) ∧
      (∀ pms, c10Payload.paymentMethods = some pms → pms ≠ [] →
        st'.userPayments =
          c1StateB.userPayments.filter
            (fun (r : String × PaymentMethod) => decide (r.1 ≠ "a")) ++
            pms.map (fun pm => ("a", pm))) ∧
      ((c10Payload.paymentMethods = none ∨ c10Payload.paymentMethods = some []) →
        st'.userPayments = c1StateB.userPayments) :=
  ⟨rfl, by decide,
    c10_partial_update_user_fields "n9" "t9" "a" c10Payload c1StateB rfl (by decide)⟩

/-! ### Claim C8: the self-path query -/

/-- C8: for an existing Person `a` (one stored node with that id),
`findShortestPath(a, a)` fails with the no-path 404: the
`WHERE u1 <> u2` clause of the path query discards the only binding, so
the query returns no records and the call surfaces the no-path error. -/
theorem c8_self_path_fails (st : GraphState) (a : String) (u : User)
    (hone : st.users.filter (fun v => decide (v.id = a)) = [u]) :
    findShortestPathFront st a a =
      .error ⟨"No path exists between users " ++ a ++ " and " ++ a, some 404⟩ := by
  have hex : userExists st a = true := by
    have hmem : u ∈ st.users.filter (fun v => decide (v.id = a)) := by
      rw [hone]
      exact List.mem_singleton.mpr rfl
    rcases List.mem_filter.mp hmem with ⟨hu, hp⟩
    exact List.any_eq_true.mpr ⟨u, hu, hp⟩
  have hrows : shortestPathQueryRows st a a = [] := by
    unfold shortestPathQueryRows
    rw [hone]
    simp
  simp only [findShortestPathFront]
  rw [if_pos ⟨hex, hex⟩, hrows]
  simp

/-- C8 (witness): the theorem applied to the two-user demo state and the
stored user `a`. -/
theorem c8_witness :
    demoUsers.users.filter (fun v => decide (v.id = "a")) =
      [⟨"a", "Ann", "A", "ea@x", none, "t0", "t0"⟩] ∧
    findShortestPathFront demoUsers "a" "a" =
      .error ⟨"No path exists between users a and a", some 404⟩ :=
  ⟨by decide,
    c8_self_path_fails demoUsers "a" ⟨"a", "Ann", "A", "ea@x", none, "t0", "t0"⟩ (by decide)⟩

/-! ### Claim C9: pagination of the person listing -/

lemma insertByCreatedAtDesc_length (x : User) (l : List User) :
    (insertByCreatedAtDesc x l).length = l.length + 1 := by
  induction l with
  | nil => rfl
  | cons y ys ih =>
    unfold insertByCreatedAtDesc
    split
    · rfl
    · simp [ih]

lemma sortByCreatedAtDesc_length (l : List User) :
    (sortByCreatedAtDesc l).length = l.length := by
  induction l with
  | nil => rfl
  | cons x xs ih =>
    unfold sortByCreatedAtDesc
    rw [List.foldr_cons, insertByCreatedAtDesc_length]
    unfold sortByCreatedAtDesc at ih
    rw [ih, List.length_cons]

lemma getAllUsers_items (st : GraphState) (offset limit : Nat) :
    (getAllUsers st offset limit).1 =
      ((sortByCreatedAtDesc st.users).drop offset).take limit := rfl

lemma getAllUsers_pagination (st : GraphState) (offset limit : Nat) :
    (getAllUsers st offset limit).2 =
      { currentPage := offset / limit + 1
        totalPages := (st.users.length + limit - 1) / limit
        totalUsers := st.users.length
        hasNextPage := decide ((offset : ℚ) / (limit : ℚ) + 1 <
          (((st.users.length + limit - 1) / limit : Nat) : ℚ))
        hasPreviousPage := decide ((1 : ℚ) < (offset : ℚ) / (limit : ℚ) + 1) } := rfl

/-- C9: over a store of exactly 25 Persons with page size 10, page 1
(offset 0) returns 10 items with hasNextPage and no hasPreviousPage, and
page 3 (offset 20) returns 5 items with hasPreviousPage and no
hasNextPage; totalPages is ceil(25/10) = 3 and currentPage is derived from
offset/limit. -/
theorem c9_pagination_25_limit10 (st : GraphState) (h : st.users.length = 25) :
    (getAllUsers st 0 10).1.length = 10 ∧
    (getAllUsers st 0 10).2 = ⟨1, 3, 25, true, false⟩ ∧
    (getAllUsers st 20 10).1.length = 5 ∧
    (getAllUsers st 20 10).2 = ⟨3, 3, 25, false, true⟩ := by
  refine ⟨?_, ?_, ?_, ?_⟩
  · rw [getAllUsers_items, List.length_take, List.length_drop, sortByCreatedAtDesc_length, h]
    decide
  · rw [getAllUsers_pagination, h]
    simp only [Pagination.mk.injEq]
    refine ⟨by norm_num, by norm_num, trivial, ?_, ?_⟩
    · rw [decide_eq_true_eq]
      norm_num
    · rw [decide_eq_false_iff_not]
      norm_num
  · rw [getAllUsers_items, List.length_take, List.length_drop, sortByCreatedAtDesc_length, h]
    decide
  · rw [getAllUsers_pagination, h]
    simp only [Pagination.mk.injEq]
    refine ⟨by norm_num, by norm_num, trivial, ?_, ?_⟩
    · rw [decide_eq_false_iff_not]
      norm_num
    · rw [decide_eq_true_eq]
      norm_num

def c9State : GraphState :=
  { emptyGraph with users :=
      List.replicate 25 ⟨"u", "F", "L", "e@x", none, "t0", "t0"⟩ }

/-- C9 (witness): the theorem applied to a concrete 25-person store. -/
theorem c9_witness :
    c9State.users.length = 25 ∧
    ((getAllUsers c9State 0 10).1.length = 10 ∧
      (getAllUsers c9State 0 10).2 = ⟨1, 3, 25, true, false⟩ ∧
      (getAllUsers c9State 20 10).1.length = 5 ∧
      (getAllUsers c9State 20 10).2 = ⟨3, 3, 25, false, true⟩) :=
  ⟨by decide, c9_pagination_25_limit10 c9State (by decide)⟩

/-! ### Claims C2 and C3: shortest-path relationship mapping -/

/-- C2: every relationship the mapper emits points along the node
sequence — its start is the node at the relationship's position and its
end the next node — and a `SENT` edge always has a User start and a
Transaction end while a `RECEIVED_BY` edge has a Transaction start and a
User end; an edge whose stored direction is opposite to the traversal
order is emitted with swapped endpoints and flipped type; an edge that
aligns with neither direction is dropped (mapped to null), not
fabricated. -/
theorem c2_path_relationship_mapping :
    (∀ (nodesRaw : List RawNode) (i : Nat) (rel : RawRel) (e : PathRelOut),
      mapRelAt nodesRaw i rel = .ok (some e) →
      ∃ n1 n2, nodesRaw.get? i = some n1 ∧ nodesRaw.get? (i + 1) = some n2 ∧
        e.startNodeId = n1.propId ∧ e.endNodeId = n2.propId ∧
        (e.relType = "SENT" → nodeKindOf n1 = .user ∧ nodeKindOf n2 = .transaction) ∧
        (e.relType = "RECEIVED_BY" → nodeKindOf n1 = .transaction ∧ nodeKindOf n2 = .user)) ∧
    (∀ (nodesRaw : List RawNode) (i : Nat) (rel : RawRel) (s t : String)
      (n1 n2 : RawNode) (e : PathRelOut),
      lookupTruthy nodesRaw rel.relStart = some s →
      lookupTruthy nodesRaw rel.relEnd = some t →
      nodesRaw.get? i = some n1 → nodesRaw.get? (i + 1) = some n2 →
      s = n2.propId → t = n1.propId → ¬(s = n1.propId ∧ t = n2.propId) →
      mapRelAt nodesRaw i rel = .ok (some e) →
      e = ⟨flipType rel.relType, t, s⟩) ∧
    (∀ (nodesRaw : List RawNode) (i : Nat) (rel : RawRel) (s t : String)
      (n1 n2 : RawNode),
      lookupTruthy nodesRaw rel.relStart = some s →
      lookupTruthy nodesRaw rel.relEnd = some t →
      nodesRaw.get? i = some n1 → nodesRaw.get? (i + 1) = some n2 →
      ¬(s = n1.propId ∧ t = n2.propId) → ¬(s = n2.propId ∧ t = n1.propId) →
      mapRelAt nodesRaw i rel = .ok none) := by
  refine ⟨?_, ?_, ?_⟩
  · intro nodesRaw i rel e h
    unfold mapRelAt at h
    rcases hls : lookupTruthy nodesRaw rel.relStart with _ | s
    · simp only [hls] at h
      exact absurd h (by simp)
    rcases hlt : lookupTruthy nodesRaw rel.relEnd with _ | t
    · simp only [hls, hlt] at h
      exact absurd h (by simp)
    simp only [hls, hlt] at h
    rcases hg1 : nodesRaw.get? i with _ | n1
    · simp only [hg1] at h
      exact absurd h (by simp)
    rcases hg2 : nodesRaw.get? (i + 1) with _ | n2
    · simp only [hg1, hg2] at h
      exact absurd h (by simp)
    simp only [hg1, hg2] at h
    refine ⟨n1, n2, rfl, rfl, ?_⟩
    by_cases hrev : s = n2.propId ∧ t = n1.propId
    · rw [if_neg (fun hc => hc.2 hrev)] at h
      have hr' : decide (s = n2.propId ∧ t = n1.propId) = true := decide_eq_true hrev
      simp only [hr', if_true] at h
      by_cases hv1 : flipType rel.relType = "SENT" ∧
          ¬(nodeKindOf n1 = .user ∧ nodeKindOf n2 = .transaction)
      · rw [if_pos hv1] at h
        exact absurd h (by simp)
      rw [if_neg hv1] at h
      by_cases hv2 : flipType rel.relType = "RECEIVED_BY" ∧
          ¬(nodeKindOf n1 = .transaction ∧ nodeKindOf n2 = .user)
      · rw [if_pos hv2] at h
        exact absurd h (by simp)
      rw [if_neg hv2] at h
      simp only [Except.ok.injEq, Option.some.injEq] at h
      subst h
      refine ⟨hrev.2, hrev.1, fun hS => ?_, fun hR => ?_⟩
      · exact Classical.byContradiction (fun hn => hv1 ⟨hS, hn⟩)
      · exact Classical.byContradiction (fun hn => hv2 ⟨hR, hn⟩)
    · by_cases hfwd : s = n1.propId ∧ t = n2.propId
      · rw [if_neg (fun hc => hc.1 hfwd)] at h
        have hr' : decide (s = n2.propId ∧ t = n1.propId) = false := decide_eq_false hrev
        simp only [hr', Bool.false_eq_true, if_false] at h
        by_cases hv1 : rel.relType = "SENT" ∧
            ¬(nodeKindOf n1 = .user ∧ nodeKindOf n2 = .transaction)
        · rw [if_pos hv1] at h
          exact absurd h (by simp)
        rw [if_neg hv1] at h
        by_cases hv2 : rel.relType = "RECEIVED_BY" ∧
            ¬(nodeKindOf n1 = .transaction ∧ nodeKindOf n2 = .user)
        · rw [if_pos hv2] at h
          exact absurd h (by simp)
        rw [if_neg hv2] at h
        simp only [Except.ok.injEq, Option.some.injEq] at h
        subst h
        refine ⟨hfwd.1, hfwd.2, fun hS => ?_, fun hR => ?_⟩
        · exact Classical.byContradiction (fun hn => hv1 ⟨hS, hn⟩)
        · exact Classical.byContradiction (fun hn => hv2 ⟨hR, hn⟩)
      · rw [if_pos ⟨hfwd, hrev⟩] at h
        exact absurd h (by simp)
  · intro nodesRaw i rel s t n1 n2 e hls hlt hg1 hg2 hs ht hnf h
    unfold mapRelAt at h
    simp only [hls, hlt, hg1, hg2] at h
    rw [if_neg (fun hc => hc.2 ⟨hs, ht⟩)] at h
    have hr' : decide (s = n2.propId ∧ t = n1.propId) = true := decide_eq_true ⟨hs, ht⟩
    simp only [hr', if_true] at h
    by_cases hv1 : flipType rel.relType = "SENT" ∧
        ¬(nodeKindOf n1 = .user ∧ nodeKindOf n2 = .transaction)
    · rw [if_pos hv1] at h
      exact absurd h (by simp)
    rw [if_neg hv1] at h
    by_cases hv2 : flipType rel.relType = "RECEIVED_BY" ∧
        ¬(nodeKindOf n1 = .transaction ∧ nodeKindOf n2 = .user)
    · rw [if_pos hv2] at h
      exact absurd h (by simp)
    rw [if_neg hv2] at h
    simp only [Except.ok.injEq, Option.some.injEq] at h
    exact h.symm
  · intro nodesRaw i rel s t n1 n2 hls hlt hg1 hg2 hnf hnr
    unfold mapRelAt
    simp only [hls, hlt, hg1, hg2]
    rw [if_pos ⟨hnf, hnr⟩]

/-- C2 (witness): a stored `SENT` relationship traversed backwards along
the node sequence `[t, b]` (its stored start is the second node) is
emitted with swapped endpoints and flipped type `RECEIVED_BY`. -/
theorem c2_witness :
    mapRelAt [⟨0, ["Transaction"], "t"⟩, ⟨1, ["User"], "b"⟩] 0 ⟨"SENT", 1, 0⟩ =
      .ok (some ⟨"RECEIVED_BY", "t", "b"⟩) ∧
    (⟨"RECEIVED_BY", "t", "b"⟩ : PathRelOut) = ⟨flipType "SENT", "t", "b"⟩ :=
  ⟨by rfl,
    c2_path_relationship_mapping.2.1 [⟨0, ["Transaction"], "t"⟩, ⟨1, ["User"], "b"⟩] 0
      ⟨"SENT", 1, 0⟩ "b" "t" ⟨0, ["Transaction"], "t"⟩ ⟨1, ["User"], "b"⟩
      ⟨"RECEIVED_BY", "t", "b"⟩ rfl rfl rfl rfl rfl rfl (by decide) (by rfl)⟩

/-- C3: whenever `findShortestPathBetweenUsers` returns a result, the
returned relationship list has exactly `length` entries; and whenever the
filtered relationship count disagrees with the query's path length, the
record processing fails with the 500 mismatch error instead of returning
a path. -/
theorem c3_edge_count_matches_path_length :
    (∀ (nodesRaw : List RawNode) (relsRaw : List RawRel) (pl : Nat)
      (r : ShortestPathResult),
      processPathRecord nodesRaw relsRaw pl = .ok r →
      r.relationships.length = r.length ∧ r.length = pl) ∧
    (∀ (nodesRaw : List RawNode) (relsRaw : List RawRel) (pl : Nat)
      (rels : List PathRelOut),
      processRels nodesRaw 0 relsRaw = .ok rels → rels.length ≠ pl →
      ∃ e, processPathRecord nodesRaw relsRaw pl = .error e ∧
        e.statusCode = some 500) := by
  constructor
  · intro nodesRaw relsRaw pl r h
    unfold processPathRecord at h
    rcases hpr : processRels nodesRaw 0 relsRaw with e | rels
    · simp only [hpr] at h
      exact absurd h (by simp)
    · simp only [hpr] at h
      by_cases hne : rels.length ≠ pl
      · rw [if_pos hne] at h
        exact absurd h (by simp)
      · rw [if_neg hne] at h
        simp only [Except.ok.injEq] at h
        subst h
        exact ⟨not_ne_iff.mp hne, rfl⟩
  · intro nodesRaw relsRaw pl rels h hne
    unfold processPathRecord
    simp only [h]
    rw [if_pos hne]
    exact ⟨_, rfl, rfl⟩

/-- C3 (witness): the invariant at a one-hop record, and the 500 failure
when the only relationship is dropped so the count disagrees with the
path length. -/
theorem c3_witness :
    processPathRecord [⟨0, ["User"], "a"⟩, ⟨1, ["Transaction"], "t"⟩] [⟨"SENT", 0, 1⟩] 1 =
      .ok ⟨[⟨.user, "a"⟩, ⟨.transaction, "t"⟩], [⟨"SENT", "a", "t"⟩], 1⟩ ∧
    ((⟨[⟨.user, "a"⟩, ⟨.transaction, "t"⟩], [⟨"SENT", "a", "t"⟩], 1⟩ :
        ShortestPathResult).relationships.length =
      (⟨[⟨.user, "a"⟩, ⟨.transaction, "t"⟩], [⟨"SENT", "a", "t"⟩], 1⟩ :
        ShortestPathResult).length ∧
      (⟨[⟨.user, "a"⟩, ⟨.transaction, "t"⟩], [⟨"SENT", "a", "t"⟩], 1⟩ :
        ShortestPathResult).length = 1) ∧
    (∃ e, processPathRecord [⟨0, ["User"], "a"⟩, ⟨1, ["Transaction"], "t"⟩]
        [⟨"SENT", 5, 6⟩] 1 = .error e ∧ e.statusCode = some 500) :=
  ⟨by rfl,
    c3_edge_count_matches_path_length.1 [⟨0, ["User"], "a"⟩, ⟨1, ["Transaction"], "t"⟩]
      [⟨"SENT", 0, 1⟩] 1 ⟨[⟨.user, "a"⟩, ⟨.transaction, "t"⟩], [⟨"SENT", "a", "t"⟩], 1⟩
      (by rfl),
    c3_edge_count_matches_path_length.2 [⟨0, ["User"], "a"⟩, ⟨1, ["Transaction"], "t"⟩]
      [⟨"SENT", 5, 6⟩] 1 [] (by rfl) (by decide)⟩

end Flagright
